import Mathlib

/-
  Verification development for the SDL2_gpu command-recording core
  (src/SDL_gpu.c, src/SDL_gpu_spirv.c).

  The embedding translates the C source into executable Lean definitions:
  the command-buffer common header becomes a record of booleans plus the
  back-reference pointers (modelled as Nat ids), every public API function
  becomes a pure function returning the new header state, the list of
  backend-interface calls it performed (with its forwarded arguments), the
  log messages it emitted, and its return value.  Opaque pointer-typed
  arguments (attachment infos, binding arrays, buffers, ...) are modelled
  as Nat stand-ins, because the core only forwards them.
-/

set_option maxHeartbeats 1000000

namespace SDLGpu

/-- Texture formats, taken from the cases enumerated in the source
(the switch of SDL_GpuTextureFormatTexelBlockSize plus the five
depth/stencil formats used by the depth-format negotiation). -/
inductive TextureFormat where
  | BC1
  | BC2
  | BC3
  | BC7
  | BC3_SRGB
  | BC7_SRGB
  | R8
  | A8
  | R8_UINT
  | R5G6B5
  | B4G4R4A4
  | A1R5G5B5
  | R16_SFLOAT
  | R8G8_SNORM
  | R8G8_UINT
  | R16_UINT
  | R8G8B8A8
  | B8G8R8A8
  | R8G8B8A8_SRGB
  | B8G8R8A8_SRGB
  | R32_SFLOAT
  | R16G16_SFLOAT
  | R8G8B8A8_SNORM
  | A2R10G10B10
  | R8G8B8A8_UINT
  | R16G16_UINT
  | R16G16B16A16_SFLOAT
  | R16G16B16A16
  | R32G32_SFLOAT
  | R16G16B16A16_UINT
  | R32G32B32A32_SFLOAT
  | D16_UNORM
  | D24_UNORM
  | D32_SFLOAT
  | D24_UNORM_S8_UINT
  | D32_SFLOAT_S8_UINT
deriving DecidableEq, Repr

/-- Texture type selector; the core only ever passes the 2D variant
(SDL_GPU_TEXTURETYPE_2D) to the backend support probe, other variants of
the enum (declared in the missing public header) are collapsed into an
opaque payload. -/
inductive TextureType where
  | t2D
  | other (n : Nat)
deriving DecidableEq, Repr

/-- Shader bytecode format; the core only ever distinguishes
SDL_GPU_SHADERFORMAT_SPIRV, the other enum values (declared in the
missing public header) are collapsed into an opaque payload. -/
inductive ShaderFormat where
  | spirv
  | other (n : Nat)
deriving DecidableEq, Repr

/-- Embedding of SDL_GpuTextureCreateInfo.  The source reads and writes
only the format and usageFlags fields; the remaining fields of the
struct (declared in the missing public header) are collapsed into the
opaque field rest, which lets us state that they are never mutated. -/
structure TextureCreateInfo where
  format : TextureFormat
  usageFlags : Nat
  rest : Nat
deriving DecidableEq, Repr

/-- Embedding of the attachmentInfo member of
SDL_GpuGraphicsPipelineCreateInfo; the source reads
hasDepthStencilAttachment and reads/writes depthStencilFormat, the other
fields are collapsed into rest. -/
structure GraphicsPipelineAttachmentInfo where
  hasDepthStencilAttachment : Bool
  depthStencilFormat : TextureFormat
  rest : Nat
deriving DecidableEq, Repr

/-- Embedding of SDL_GpuGraphicsPipelineCreateInfo; fields other than
attachmentInfo are collapsed into rest. -/
structure GraphicsPipelineCreateInfo where
  attachmentInfo : GraphicsPipelineAttachmentInfo
  rest : Nat
deriving DecidableEq, Repr

/-- Embedding of SDL_GpuShaderCreateInfo; the source reads format, code,
codeSize, stage and entryPointName, the other fields are collapsed into
rest. -/
structure ShaderCreateInfo where
  format : ShaderFormat
  code : Nat
  codeSize : Nat
  stage : Nat
  entryPointName : String
  rest : Nat
deriving DecidableEq, Repr

/-- One call through the backend interface (the function table every
backend implements), together with the arguments the core forwarded to
it.  Opaque pointers are Nat ids. -/
inductive BackendOp where
  | beginRenderPass (colorAttachmentInfos colorAttachmentCount depthStencilAttachmentInfo : Nat)
  | bindGraphicsPipeline (graphicsPipeline : Nat)
  | setViewport (viewport : Nat)
  | setScissor (scissor : Nat)
  | bindVertexBuffers (firstBinding pBindings bindingCount : Nat)
  | bindIndexBuffer (pBinding indexElementSize : Nat)
  | bindVertexSamplers (firstSlot textureSamplerBindings bindingCount : Nat)
  | bindVertexStorageTextures (firstSlot storageTextureSlices bindingCount : Nat)
  | bindVertexStorageBuffers (firstSlot storageBuffers bindingCount : Nat)
  | bindFragmentSamplers (firstSlot textureSamplerBindings bindingCount : Nat)
  | bindFragmentStorageTextures (firstSlot storageTextureSlices bindingCount : Nat)
  | bindFragmentStorageBuffers (firstSlot storageBuffers bindingCount : Nat)
  | pushVertexUniformData (slotIndex data dataLengthInBytes : Nat)
  | pushFragmentUniformData (slotIndex data dataLengthInBytes : Nat)
  | drawIndexedPrimitives (baseVertex startIndex primitiveCount instanceCount : Nat)
  | drawPrimitives (vertexStart primitiveCount : Nat)
  | drawPrimitivesIndirect (buffer offsetInBytes drawCount stride : Nat)
  | drawIndexedPrimitivesIndirect (buffer offsetInBytes drawCount stride : Nat)
  | endRenderPass
  | beginComputePass (storageTextureBindings storageTextureBindingCount storageBufferBindings storageBufferBindingCount : Nat)
  | bindComputePipeline (computePipeline : Nat)
  | bindComputeStorageTextures (firstSlot storageTextureSlices bindingCount : Nat)
  | bindComputeStorageBuffers (firstSlot storageBuffers bindingCount : Nat)
  | pushComputeUniformData (slotIndex data dataLengthInBytes : Nat)
  | dispatchCompute (groupCountX groupCountY groupCountZ : Nat)
  | endComputePass
  | beginCopyPass
  | uploadToTexture (transferBuffer textureRegion copyParams : Nat) (cycle : Bool)
  | uploadToBuffer (transferBuffer buffer copyParams : Nat) (cycle : Bool)
  | copyTextureToTexture (source destination : Nat) (cycle : Bool)
  | copyBufferToBuffer (source destination copyParams : Nat) (cycle : Bool)
  | generateMipmaps (texture : Nat)
  | downloadFromTexture (textureRegion transferBuffer copyParams : Nat)
  | downloadFromBuffer (buffer transferBuffer copyParams : Nat)
  | endCopyPass
  | submit
  | submitAndAcquireFence
  | createComputePipeline (driverData computePipelineCreateInfo : Nat)
  | createGraphicsPipeline (driverData : Nat) (info : GraphicsPipelineCreateInfo)
  | createSampler (driverData samplerStateInfo : Nat)
  | createShader (driverData : Nat) (info : ShaderCreateInfo)
  | compileFromSPIRVCross (driverData stage : Nat) (entryPointName translatedSource : String)
  | createTexture (driverData : Nat) (info : TextureCreateInfo)
  | createBuffer (driverData usageFlags sizeInBytes : Nat)
  | createTransferBuffer (driverData usage mapFlags sizeInBytes : Nat)
  | createOcclusionQuery (driverData : Nat)
  | releaseTexture (driverData texture : Nat)
  | releaseSampler (driverData sampler : Nat)
  | releaseBuffer (driverData buffer : Nat)
  | releaseTransferBuffer (driverData transferBuffer : Nat)
  | releaseShader (driverData shader : Nat)
  | releaseComputePipeline (driverData computePipeline : Nat)
  | releaseGraphicsPipeline (driverData graphicsPipeline : Nat)
  | releaseOcclusionQuery (driverData query : Nat)
  | releaseFence (driverData fence : Nat)
deriving Repr

/-- One log message emitted by the core.  Fixed-text SDL_LogError /
SDL_LogWarn messages keep their exact source strings; the two formatted
messages carry their payloads structurally. -/
inductive LogMsg where
  | error (msg : String)
  | warn (msg : String)
  | warnUnsupportedDepthFormat (requested fallback : TextureFormat)
  | errorHintUnsupported (hint : String)
deriving DecidableEq, Repr

/-- Embedding of the struct Pass: back-reference to the owning command
buffer (a pointer, modelled as a Nat id) and the in-progress flag. -/
structure Pass where
  commandBuffer : Nat
  inProgress : Bool
deriving DecidableEq, Repr

/-- Embedding of CommandBufferCommonHeader: the owning device (pointer
modelled as a Nat id), the three embedded pass trackers, the two
pipeline-bound gates, and the submitted flag. -/
structure CommandBufferCommonHeader where
  device : Nat
  renderPass : Pass
  computePass : Pass
  copyPass : Pass
  graphicsPipelineBound : Bool
  computePipelineBound : Bool
  submitted : Bool
deriving DecidableEq, Repr

/-- Identifies which of the three embedded pass trackers a begin-pass
call returned a pointer to. -/
inductive PassKind where
  | render
  | compute
  | copy
deriving DecidableEq, Repr

/-- Result of a begin-pass call: the command buffer state after the call
(none when the command buffer argument was null), the backend calls
made, the log messages emitted, and the returned pass handle (none =
NULL). -/
structure BeginPassResult where
  buf : Option CommandBufferCommonHeader
  calls : List BackendOp
  logs : List LogMsg
  pass : Option PassKind
deriving Repr

/-- Result of a pass-scoped operation (which receives a non-null pass
handle pointing into its command buffer): the command buffer state after
the call, the backend calls made, and the log messages emitted. -/
structure PassOpResult where
  buf : CommandBufferCommonHeader
  calls : List BackendOp
  logs : List LogMsg
deriving Repr

/-- Result of SDL_GpuSubmit. -/
structure SubmitResult where
  buf : Option CommandBufferCommonHeader
  calls : List BackendOp
  logs : List LogMsg
deriving Repr

/-- Result of SDL_GpuSubmitAndAcquireFence; fence = some () means the
backend call was made and its fence return value is passed through
verbatim, none means the function returned NULL without a backend
call. -/
structure SubmitFenceResult where
  buf : Option CommandBufferCommonHeader
  calls : List BackendOp
  logs : List LogMsg
  fence : Option Unit
deriving Repr

/-- Embedding of SDL_GpuAcquireCommandBuffer.  The backend
AcquireCommandBuffer result is passed in as an argument: none models a
NULL return, some (ptr, raw) models a buffer at pointer ptr whose common
header currently holds arbitrary prior contents raw.  The core overwrites
every header field: device back-reference, the three pass trackers (each
with its back-pointer to the buffer and a cleared in-progress flag), both
pipeline-bound gates, and the submitted flag. -/
def SDL_GpuAcquireCommandBuffer (device : Nat)
    (backendResult : Option (Nat × CommandBufferCommonHeader)) :
    Option (Nat × CommandBufferCommonHeader) :=
  match backendResult with
  | none => none
  | some (ptr, _raw) =>
      some (ptr,
        { device := device
          renderPass := { commandBuffer := ptr, inProgress := false }
          computePass := { commandBuffer := ptr, inProgress := false }
          copyPass := { commandBuffer := ptr, inProgress := false }
          graphicsPipelineBound := false
          computePipelineBound := false
          submitted := false })

/-- The header state a freshly acquired command buffer starts in
(the assignments at the end of SDL_GpuAcquireCommandBuffer). -/
def acquiredHeader (device ptr : Nat) : CommandBufferCommonHeader :=
  { device := device
    renderPass := { commandBuffer := ptr, inProgress := false }
    computePass := { commandBuffer := ptr, inProgress := false }
    copyPass := { commandBuffer := ptr, inProgress := false }
    graphicsPipelineBound := false
    computePipelineBound := false
    submitted := false }

/-- Embedding of SDL_GpuBeginRenderPass: CHECK_COMMAND_BUFFER_RETURN_NULL
(null buffer returns NULL; submitted buffer logs and returns NULL), then
CHECK_ANY_PASS_IN_PROGRESS (logs and returns NULL), then forwards to the
backend, marks render-in-progress, and returns a pointer to the embedded
render pass tracker. -/
def SDL_GpuBeginRenderPass (commandBuffer : Option CommandBufferCommonHeader)
    (colorAttachmentInfos colorAttachmentCount depthStencilAttachmentInfo : Nat) :
    BeginPassResult :=
  match commandBuffer with
  | none => ⟨none, [], [], none⟩
  | some h =>
    if h.submitted then
      ⟨some h, [], [LogMsg.error "Command buffer already submitted!"], none⟩
    else if h.renderPass.inProgress || h.computePass.inProgress || h.copyPass.inProgress then
      ⟨some h, [], [LogMsg.error "Pass already in progress!"], none⟩
    else
      ⟨some { h with renderPass := { h.renderPass with inProgress := true } },
        [BackendOp.beginRenderPass colorAttachmentInfos colorAttachmentCount depthStencilAttachmentInfo],
        [], some PassKind.render⟩

/-- Embedding of SDL_GpuBeginComputePass; same guard structure as
SDL_GpuBeginRenderPass, marks compute-in-progress on success. -/
def SDL_GpuBeginComputePass (commandBuffer : Option CommandBufferCommonHeader)
    (storageTextureBindings storageTextureBindingCount storageBufferBindings storageBufferBindingCount : Nat) :
    BeginPassResult :=
  match commandBuffer with
  | none => ⟨none, [], [], none⟩
  | some h =>
    if h.submitted then
      ⟨some h, [], [LogMsg.error "Command buffer already submitted!"], none⟩
    else if h.renderPass.inProgress || h.computePass.inProgress || h.copyPass.inProgress then
      ⟨some h, [], [LogMsg.error "Pass already in progress!"], none⟩
    else
      ⟨some { h with computePass := { h.computePass with inProgress := true } },
        [BackendOp.beginComputePass storageTextureBindings storageTextureBindingCount storageBufferBindings storageBufferBindingCount],
        [], some PassKind.compute⟩

/-- Embedding of SDL_GpuBeginCopyPass; same guard structure as
SDL_GpuBeginRenderPass, marks copy-in-progress on success. -/
def SDL_GpuBeginCopyPass (commandBuffer : Option CommandBufferCommonHeader) :
    BeginPassResult :=
  match commandBuffer with
  | none => ⟨none, [], [], none⟩
  | some h =>
    if h.submitted then
      ⟨some h, [], [LogMsg.error "Command buffer already submitted!"], none⟩
    else if h.renderPass.inProgress || h.computePass.inProgress || h.copyPass.inProgress then
      ⟨some h, [], [LogMsg.error "Pass already in progress!"], none⟩
    else
      ⟨some { h with copyPass := { h.copyPass with inProgress := true } },
        [BackendOp.beginCopyPass],
        [], some PassKind.copy⟩

/-- Embedding of the shared CHECK_RENDERPASS + CHECK_GRAPHICS_PIPELINE_BOUND
macro sequence followed by a backend call: refuse with the exact source
log message when the render pass is not in progress, then when the
graphics pipeline is not bound; otherwise forward fwd to the backend. -/
def renderPassGated (h : CommandBufferCommonHeader) (fwd : List BackendOp) : PassOpResult :=
  if !h.renderPass.inProgress then
    ⟨h, [], [LogMsg.error "Render pass not in progress!"]⟩
  else if !h.graphicsPipelineBound then
    ⟨h, [], [LogMsg.error "Graphics pipeline not bound!"]⟩
  else
    ⟨h, fwd, []⟩

/-- Embedding of the CHECK_RENDERPASS macro alone followed by a backend
call (used by viewport/scissor, which are not pipeline-gated). -/
def renderPassOnly (h : CommandBufferCommonHeader) (fwd : List BackendOp) : PassOpResult :=
  if !h.renderPass.inProgress then
    ⟨h, [], [LogMsg.error "Render pass not in progress!"]⟩
  else
    ⟨h, fwd, []⟩

/-- Embedding of the shared CHECK_COMPUTEPASS + CHECK_COMPUTE_PIPELINE_BOUND
macro sequence followed by a backend call. -/
def computePassGated (h : CommandBufferCommonHeader) (fwd : List BackendOp) : PassOpResult :=
  if !h.computePass.inProgress then
    ⟨h, [], [LogMsg.error "Compute pass not in progress!"]⟩
  else if !h.computePipelineBound then
    ⟨h, [], [LogMsg.error "Compute pipeline not bound!"]⟩
  else
    ⟨h, fwd, []⟩

/-- Embedding of the CHECK_COPYPASS macro alone followed by a backend
call. -/
def copyPassOnly (h : CommandBufferCommonHeader) (fwd : List BackendOp) : PassOpResult :=
  if !h.copyPass.inProgress then
    ⟨h, [], [LogMsg.error "Copy pass not in progress!"]⟩
  else
    ⟨h, fwd, []⟩

/-- Embedding of SDL_GpuBindGraphicsPipeline.  NOTE: the source has only
NULL_ASSERT(renderPass) here; unlike SDL_GpuBindComputePipeline there is
no CHECK_RENDERPASS, so the backend call is made and the
graphicsPipelineBound gate is set even when the render pass is not in
progress. -/
def SDL_GpuBindGraphicsPipeline (h : CommandBufferCommonHeader)
    (graphicsPipeline : Nat) : PassOpResult :=
  ⟨{ h with graphicsPipelineBound := true },
    [BackendOp.bindGraphicsPipeline graphicsPipeline], []⟩

/-- Embedding of SDL_GpuSetViewport (CHECK_RENDERPASS only). -/
def SDL_GpuSetViewport (h : CommandBufferCommonHeader) (viewport : Nat) : PassOpResult :=
  renderPassOnly h [BackendOp.setViewport viewport]

/-- Embedding of SDL_GpuSetScissor (CHECK_RENDERPASS only). -/
def SDL_GpuSetScissor (h : CommandBufferCommonHeader) (scissor : Nat) : PassOpResult :=
  renderPassOnly h [BackendOp.setScissor scissor]

/-- Embedding of SDL_GpuBindVertexBuffers. -/
def SDL_GpuBindVertexBuffers (h : CommandBufferCommonHeader)
    (firstBinding pBindings bindingCount : Nat) : PassOpResult :=
  renderPassGated h [BackendOp.bindVertexBuffers firstBinding pBindings bindingCount]

/-- Embedding of SDL_GpuBindIndexBuffer. -/
def SDL_GpuBindIndexBuffer (h : CommandBufferCommonHeader)
    (pBinding indexElementSize : Nat) : PassOpResult :=
  renderPassGated h [BackendOp.bindIndexBuffer pBinding indexElementSize]

/-- Embedding of SDL_GpuBindVertexSamplers. -/
def SDL_GpuBindVertexSamplers (h : CommandBufferCommonHeader)
    (firstSlot textureSamplerBindings bindingCount : Nat) : PassOpResult :=
  renderPassGated h [BackendOp.bindVertexSamplers firstSlot textureSamplerBindings bindingCount]

/-- Embedding of SDL_GpuBindVertexStorageTextures. -/
def SDL_GpuBindVertexStorageTextures (h : CommandBufferCommonHeader)
    (firstSlot storageTextureSlices bindingCount : Nat) : PassOpResult :=
  renderPassGated h [BackendOp.bindVertexStorageTextures firstSlot storageTextureSlices bindingCount]

/-- Embedding of SDL_GpuBindVertexStorageBuffers. -/
def SDL_GpuBindVertexStorageBuffers (h : CommandBufferCommonHeader)
    (firstSlot storageBuffers bindingCount : Nat) : PassOpResult :=
  renderPassGated h [BackendOp.bindVertexStorageBuffers firstSlot storageBuffers bindingCount]

/-- Embedding of SDL_GpuBindFragmentSamplers. -/
def SDL_GpuBindFragmentSamplers (h : CommandBufferCommonHeader)
    (firstSlot textureSamplerBindings bindingCount : Nat) : PassOpResult :=
  renderPassGated h [BackendOp.bindFragmentSamplers firstSlot textureSamplerBindings bindingCount]

/-- Embedding of SDL_GpuBindFragmentStorageTextures. -/
def SDL_GpuBindFragmentStorageTextures (h : CommandBufferCommonHeader)
    (firstSlot storageTextureSlices bindingCount : Nat) : PassOpResult :=
  renderPassGated h [BackendOp.bindFragmentStorageTextures firstSlot storageTextureSlices bindingCount]

/-- Embedding of SDL_GpuBindFragmentStorageBuffers. -/
def SDL_GpuBindFragmentStorageBuffers (h : CommandBufferCommonHeader)
    (firstSlot storageBuffers bindingCount : Nat) : PassOpResult :=
  renderPassGated h [BackendOp.bindFragmentStorageBuffers firstSlot storageBuffers bindingCount]

/-- Embedding of SDL_GpuPushVertexUniformData. -/
def SDL_GpuPushVertexUniformData (h : CommandBufferCommonHeader)
    (slotIndex data dataLengthInBytes : Nat) : PassOpResult :=
  renderPassGated h [BackendOp.pushVertexUniformData slotIndex data dataLengthInBytes]

/-- Embedding of SDL_GpuPushFragmentUniformData. -/
def SDL_GpuPushFragmentUniformData (h : CommandBufferCommonHeader)
    (slotIndex data dataLengthInBytes : Nat) : PassOpResult :=
  renderPassGated h [BackendOp.pushFragmentUniformData slotIndex data dataLengthInBytes]

/-- Embedding of SDL_GpuDrawIndexedPrimitives. -/
def SDL_GpuDrawIndexedPrimitives (h : CommandBufferCommonHeader)
    (baseVertex startIndex primitiveCount instanceCount : Nat) : PassOpResult :=
  renderPassGated h [BackendOp.drawIndexedPrimitives baseVertex startIndex primitiveCount instanceCount]

/-- Embedding of SDL_GpuDrawPrimitives. -/
def SDL_GpuDrawPrimitives (h : CommandBufferCommonHeader)
    (vertexStart primitiveCount : Nat) : PassOpResult :=
  renderPassGated h [BackendOp.drawPrimitives vertexStart primitiveCount]

/-- Embedding of SDL_GpuDrawPrimitivesIndirect. -/
def SDL_GpuDrawPrimitivesIndirect (h : CommandBufferCommonHeader)
    (buffer offsetInBytes drawCount stride : Nat) : PassOpResult :=
  renderPassGated h [BackendOp.drawPrimitivesIndirect buffer offsetInBytes drawCount stride]

/-- Embedding of SDL_GpuDrawIndexedPrimitivesIndirect. -/
def SDL_GpuDrawIndexedPrimitivesIndirect (h : CommandBufferCommonHeader)
    (buffer offsetInBytes drawCount stride : Nat) : PassOpResult :=
  renderPassGated h [BackendOp.drawIndexedPrimitivesIndirect buffer offsetInBytes drawCount stride]

/-- Embedding of SDL_GpuEndRenderPass: CHECK_RENDERPASS, then backend
call, then clears render-in-progress and the graphicsPipelineBound gate
unconditionally. -/
def SDL_GpuEndRenderPass (h : CommandBufferCommonHeader) : PassOpResult :=
  if !h.renderPass.inProgress then
    ⟨h, [], [LogMsg.error "Render pass not in progress!"]⟩
  else
    ⟨{ h with renderPass := { h.renderPass with inProgress := false },
              graphicsPipelineBound := false },
      [BackendOp.endRenderPass], []⟩

/-- Embedding of SDL_GpuBindComputePipeline: CHECK_COMPUTEPASS, then
backend call, then sets the computePipelineBound gate. -/
def SDL_GpuBindComputePipeline (h : CommandBufferCommonHeader)
    (computePipeline : Nat) : PassOpResult :=
  if !h.computePass.inProgress then
    ⟨h, [], [LogMsg.error "Compute pass not in progress!"]⟩
  else
    ⟨{ h with computePipelineBound := true },
      [BackendOp.bindComputePipeline computePipeline], []⟩

/-- Embedding of SDL_GpuBindComputeStorageTextures. -/
def SDL_GpuBindComputeStorageTextures (h : CommandBufferCommonHeader)
    (firstSlot storageTextureSlices bindingCount : Nat) : PassOpResult :=
  computePassGated h [BackendOp.bindComputeStorageTextures firstSlot storageTextureSlices bindingCount]

/-- Embedding of SDL_GpuBindComputeStorageBuffers. -/
def SDL_GpuBindComputeStorageBuffers (h : CommandBufferCommonHeader)
    (firstSlot storageBuffers bindingCount : Nat) : PassOpResult :=
  computePassGated h [BackendOp.bindComputeStorageBuffers firstSlot storageBuffers bindingCount]

/-- Embedding of SDL_GpuPushComputeUniformData. -/
def SDL_GpuPushComputeUniformData (h : CommandBufferCommonHeader)
    (slotIndex data dataLengthInBytes : Nat) : PassOpResult :=
  computePassGated h [BackendOp.pushComputeUniformData slotIndex data dataLengthInBytes]

/-- Embedding of SDL_GpuDispatchCompute. -/
def SDL_GpuDispatchCompute (h : CommandBufferCommonHeader)
    (groupCountX groupCountY groupCountZ : Nat) : PassOpResult :=
  computePassGated h [BackendOp.dispatchCompute groupCountX groupCountY groupCountZ]

/-- Embedding of SDL_GpuEndComputePass: CHECK_COMPUTEPASS, then backend
call, then clears compute-in-progress and the computePipelineBound gate
unconditionally. -/
def SDL_GpuEndComputePass (h : CommandBufferCommonHeader) : PassOpResult :=
  if !h.computePass.inProgress then
    ⟨h, [], [LogMsg.error "Compute pass not in progress!"]⟩
  else
    ⟨{ h with computePass := { h.computePass with inProgress := false },
              computePipelineBound := false },
      [BackendOp.endComputePass], []⟩

/-- Embedding of SDL_GpuUploadToTexture: the only copy-pass data
operation guarded by CHECK_COPYPASS in the source. -/
def SDL_GpuUploadToTexture (h : CommandBufferCommonHeader)
    (transferBuffer textureRegion copyParams : Nat) (cycle : Bool) : PassOpResult :=
  copyPassOnly h [BackendOp.uploadToTexture transferBuffer textureRegion copyParams cycle]

/-- Embedding of SDL_GpuUploadToBuffer.  NOTE: the source has only
NULL_ASSERT(copyPass) here, no CHECK_COPYPASS: the call is forwarded to
the backend regardless of the copy-pass in-progress flag. -/
def SDL_GpuUploadToBuffer (h : CommandBufferCommonHeader)
    (transferBuffer buffer copyParams : Nat) (cycle : Bool) : PassOpResult :=
  ⟨h, [BackendOp.uploadToBuffer transferBuffer buffer copyParams cycle], []⟩

/-- Embedding of SDL_GpuCopyTextureToTexture (no CHECK_COPYPASS in the
source). -/
def SDL_GpuCopyTextureToTexture (h : CommandBufferCommonHeader)
    (source destination : Nat) (cycle : Bool) : PassOpResult :=
  ⟨h, [BackendOp.copyTextureToTexture source destination cycle], []⟩

/-- Embedding of SDL_GpuCopyBufferToBuffer (no CHECK_COPYPASS in the
source). -/
def SDL_GpuCopyBufferToBuffer (h : CommandBufferCommonHeader)
    (source destination copyParams : Nat) (cycle : Bool) : PassOpResult :=
  ⟨h, [BackendOp.copyBufferToBuffer source destination copyParams cycle], []⟩

/-- Embedding of SDL_GpuGenerateMipmaps (no CHECK_COPYPASS in the
source). -/
def SDL_GpuGenerateMipmaps (h : CommandBufferCommonHeader)
    (texture : Nat) : PassOpResult :=
  ⟨h, [BackendOp.generateMipmaps texture], []⟩

/-- Embedding of SDL_GpuDownloadFromTexture (no CHECK_COPYPASS in the
source). -/
def SDL_GpuDownloadFromTexture (h : CommandBufferCommonHeader)
    (textureRegion transferBuffer copyParams : Nat) : PassOpResult :=
  ⟨h, [BackendOp.downloadFromTexture textureRegion transferBuffer copyParams], []⟩

/-- Embedding of SDL_GpuDownloadFromBuffer (no CHECK_COPYPASS in the
source). -/
def SDL_GpuDownloadFromBuffer (h : CommandBufferCommonHeader)
    (buffer transferBuffer copyParams : Nat) : PassOpResult :=
  ⟨h, [BackendOp.downloadFromBuffer buffer transferBuffer copyParams], []⟩

/-- Embedding of SDL_GpuEndCopyPass: CHECK_COPYPASS, then backend call,
then clears copy-in-progress (the copy pass has no pipeline gate). -/
def SDL_GpuEndCopyPass (h : CommandBufferCommonHeader) : PassOpResult :=
  if !h.copyPass.inProgress then
    ⟨h, [], [LogMsg.error "Copy pass not in progress!"]⟩
  else
    ⟨{ h with copyPass := { h.copyPass with inProgress := false } },
      [BackendOp.endCopyPass], []⟩

/-- Embedding of SDL_GpuSubmit: CHECK_COMMAND_BUFFER (null returns,
submitted logs and returns), then refuses while any pass is in progress,
otherwise sets submitted and forwards to the backend. -/
def SDL_GpuSubmit (commandBuffer : Option CommandBufferCommonHeader) : SubmitResult :=
  match commandBuffer with
  | none => ⟨none, [], []⟩
  | some h =>
    if h.submitted then
      ⟨some h, [], [LogMsg.error "Command buffer already submitted!"]⟩
    else if h.renderPass.inProgress || h.computePass.inProgress || h.copyPass.inProgress then
      ⟨some h, [], [LogMsg.error "Cannot submit command buffer while a pass is in progress!"]⟩
    else
      ⟨some { h with submitted := true }, [BackendOp.submit], []⟩

/-- Embedding of SDL_GpuSubmitAndAcquireFence: same guards as
SDL_GpuSubmit; on acceptance the backend fence return value is passed
through verbatim. -/
def SDL_GpuSubmitAndAcquireFence (commandBuffer : Option CommandBufferCommonHeader) :
    SubmitFenceResult :=
  match commandBuffer with
  | none => ⟨none, [], [], none⟩
  | some h =>
    if h.submitted then
      ⟨some h, [], [LogMsg.error "Command buffer already submitted!"], none⟩
    else if h.renderPass.inProgress || h.computePass.inProgress || h.copyPass.inProgress then
      ⟨some h, [], [LogMsg.error "Cannot submit command buffer while a pass is in progress!"], none⟩
    else
      ⟨some { h with submitted := true }, [BackendOp.submitAndAcquireFence], [], some ()⟩

/-- One API call acting on a command buffer (or on a pass handle
obtained from it), with the arguments the caller supplies.  Used to
define the set of command-buffer states reachable through the public
API. -/
inductive ApiCall where
  | beginRenderPass (a b c : Nat)
  | beginComputePass (a b c d : Nat)
  | beginCopyPass
  | bindGraphicsPipeline (p : Nat)
  | setViewport (v : Nat)
  | setScissor (s : Nat)
  | bindVertexBuffers (a b c : Nat)
  | bindIndexBuffer (a b : Nat)
  | bindVertexSamplers (a b c : Nat)
  | bindVertexStorageTextures (a b c : Nat)
  | bindVertexStorageBuffers (a b c : Nat)
  | bindFragmentSamplers (a b c : Nat)
  | bindFragmentStorageTextures (a b c : Nat)
  | bindFragmentStorageBuffers (a b c : Nat)
  | pushVertexUniformData (a b c : Nat)
  | pushFragmentUniformData (a b c : Nat)
  | drawIndexedPrimitives (a b c d : Nat)
  | drawPrimitives (a b : Nat)
  | drawPrimitivesIndirect (a b c d : Nat)
  | drawIndexedPrimitivesIndirect (a b c d : Nat)
  | endRenderPass
  | bindComputePipeline (p : Nat)
  | bindComputeStorageTextures (a b c : Nat)
  | bindComputeStorageBuffers (a b c : Nat)
  | pushComputeUniformData (a b c : Nat)
  | dispatchCompute (a b c : Nat)
  | endComputePass
  | uploadToTexture (a b c : Nat) (cy : Bool)
  | uploadToBuffer (a b c : Nat) (cy : Bool)
  | copyTextureToTexture (a b : Nat) (cy : Bool)
  | copyBufferToBuffer (a b c : Nat) (cy : Bool)
  | generateMipmaps (t : Nat)
  | downloadFromTexture (a b c : Nat)
  | downloadFromBuffer (a b c : Nat)
  | endCopyPass
  | submit
  | submitAndAcquireFence
deriving Repr

/-- The command-buffer header state after one API call. -/
def applyCall : ApiCall → CommandBufferCommonHeader → CommandBufferCommonHeader
  | .beginRenderPass a b c, h => ((SDL_GpuBeginRenderPass (some h) a b c).buf).getD h
  | .beginComputePass a b c d, h => ((SDL_GpuBeginComputePass (some h) a b c d).buf).getD h
  | .beginCopyPass, h => ((SDL_GpuBeginCopyPass (some h)).buf).getD h
  | .bindGraphicsPipeline p, h => (SDL_GpuBindGraphicsPipeline h p).buf
  | .setViewport v, h => (SDL_GpuSetViewport h v).buf
  | .setScissor s, h => (SDL_GpuSetScissor h s).buf
  | .bindVertexBuffers a b c, h => (SDL_GpuBindVertexBuffers h a b c).buf
  | .bindIndexBuffer a b, h => (SDL_GpuBindIndexBuffer h a b).buf
  | .bindVertexSamplers a b c, h => (SDL_GpuBindVertexSamplers h a b c).buf
  | .bindVertexStorageTextures a b c, h => (SDL_GpuBindVertexStorageTextures h a b c).buf
  | .bindVertexStorageBuffers a b c, h => (SDL_GpuBindVertexStorageBuffers h a b c).buf
  | .bindFragmentSamplers a b c, h => (SDL_GpuBindFragmentSamplers h a b c).buf
  | .bindFragmentStorageTextures a b c, h => (SDL_GpuBindFragmentStorageTextures h a b c).buf
  | .bindFragmentStorageBuffers a b c, h => (SDL_GpuBindFragmentStorageBuffers h a b c).buf
  | .pushVertexUniformData a b c, h => (SDL_GpuPushVertexUniformData h a b c).buf
  | .pushFragmentUniformData a b c, h => (SDL_GpuPushFragmentUniformData h a b c).buf
  | .drawIndexedPrimitives a b c d, h => (SDL_GpuDrawIndexedPrimitives h a b c d).buf
  | .drawPrimitives a b, h => (SDL_GpuDrawPrimitives h a b).buf
  | .drawPrimitivesIndirect a b c d, h => (SDL_GpuDrawPrimitivesIndirect h a b c d).buf
  | .drawIndexedPrimitivesIndirect a b c d, h => (SDL_GpuDrawIndexedPrimitivesIndirect h a b c d).buf
  | .endRenderPass, h => (SDL_GpuEndRenderPass h).buf
  | .bindComputePipeline p, h => (SDL_GpuBindComputePipeline h p).buf
  | .bindComputeStorageTextures a b c, h => (SDL_GpuBindComputeStorageTextures h a b c).buf
  | .bindComputeStorageBuffers a b c, h => (SDL_GpuBindComputeStorageBuffers h a b c).buf
  | .pushComputeUniformData a b c, h => (SDL_GpuPushComputeUniformData h a b c).buf
  | .dispatchCompute a b c, h => (SDL_GpuDispatchCompute h a b c).buf
  | .endComputePass, h => (SDL_GpuEndComputePass h).buf
  | .uploadToTexture a b c cy, h => (SDL_GpuUploadToTexture h a b c cy).buf
  | .uploadToBuffer a b c cy, h => (SDL_GpuUploadToBuffer h a b c cy).buf
  | .copyTextureToTexture a b cy, h => (SDL_GpuCopyTextureToTexture h a b cy).buf
  | .copyBufferToBuffer a b c cy, h => (SDL_GpuCopyBufferToBuffer h a b c cy).buf
  | .generateMipmaps t, h => (SDL_GpuGenerateMipmaps h t).buf
  | .downloadFromTexture a b c, h => (SDL_GpuDownloadFromTexture h a b c).buf
  | .downloadFromBuffer a b c, h => (SDL_GpuDownloadFromBuffer h a b c).buf
  | .endCopyPass, h => (SDL_GpuEndCopyPass h).buf
  | .submit, h => ((SDL_GpuSubmit (some h)).buf).getD h
  | .submitAndAcquireFence, h => ((SDL_GpuSubmitAndAcquireFence (some h)).buf).getD h

/-- Command-buffer header states reachable through the public API,
starting from the state set up by SDL_GpuAcquireCommandBuffer. -/
inductive Reachable : CommandBufferCommonHeader → Prop where
  | acquired (device ptr : Nat) : Reachable (acquiredHeader device ptr)
  | step (c : ApiCall) (h : CommandBufferCommonHeader) :
      Reachable h → Reachable (applyCall c h)

/-- At most one of the three pass in-progress flags is set. -/
def atMostOnePass (h : CommandBufferCommonHeader) : Bool :=
  !(h.renderPass.inProgress && h.computePass.inProgress) &&
  !(h.renderPass.inProgress && h.copyPass.inProgress) &&
  !(h.computePass.inProgress && h.copyPass.inProgress)

theorem renderPassGated_buf (h : CommandBufferCommonHeader) (fwd : List BackendOp) :
    (renderPassGated h fwd).buf = h := by
  unfold renderPassGated
  split
  · rfl
  · split <;> rfl

theorem renderPassOnly_buf (h : CommandBufferCommonHeader) (fwd : List BackendOp) :
    (renderPassOnly h fwd).buf = h := by
  unfold renderPassOnly
  split <;> rfl

theorem computePassGated_buf (h : CommandBufferCommonHeader) (fwd : List BackendOp) :
    (computePassGated h fwd).buf = h := by
  unfold computePassGated
  split
  · rfl
  · split <;> rfl

theorem copyPassOnly_buf (h : CommandBufferCommonHeader) (fwd : List BackendOp) :
    (copyPassOnly h fwd).buf = h := by
  unfold copyPassOnly
  split <;> rfl

theorem atMostOnePass_applyCall (c : ApiCall) (h : CommandBufferCommonHeader)
    (ih : atMostOnePass h = true) : atMostOnePass (applyCall c h) = true := by
  cases c <;>
    simp only [applyCall, SDL_GpuBeginRenderPass, SDL_GpuBeginComputePass, SDL_GpuBeginCopyPass,
      SDL_GpuBindGraphicsPipeline, SDL_GpuSetViewport, SDL_GpuSetScissor,
      SDL_GpuBindVertexBuffers, SDL_GpuBindIndexBuffer, SDL_GpuBindVertexSamplers,
      SDL_GpuBindVertexStorageTextures, SDL_GpuBindVertexStorageBuffers,
      SDL_GpuBindFragmentSamplers, SDL_GpuBindFragmentStorageTextures,
      SDL_GpuBindFragmentStorageBuffers, SDL_GpuPushVertexUniformData,
      SDL_GpuPushFragmentUniformData, SDL_GpuDrawIndexedPrimitives, SDL_GpuDrawPrimitives,
      SDL_GpuDrawPrimitivesIndirect, SDL_GpuDrawIndexedPrimitivesIndirect,
      SDL_GpuEndRenderPass, SDL_GpuBindComputePipeline, SDL_GpuBindComputeStorageTextures,
      SDL_GpuBindComputeStorageBuffers, SDL_GpuPushComputeUniformData, SDL_GpuDispatchCompute,
      SDL_GpuEndComputePass, SDL_GpuUploadToTexture, SDL_GpuUploadToBuffer,
      SDL_GpuCopyTextureToTexture, SDL_GpuCopyBufferToBuffer, SDL_GpuGenerateMipmaps,
      SDL_GpuDownloadFromTexture, SDL_GpuDownloadFromBuffer, SDL_GpuEndCopyPass,
      SDL_GpuSubmit, SDL_GpuSubmitAndAcquireFence,
      renderPassGated_buf, renderPassOnly_buf, computePassGated_buf, copyPassOnly_buf] <;>
    first
      | exact ih
      | (repeat' split) <;> simp_all [atMostOnePass]

theorem reachable_atMostOnePass (h : CommandBufferCommonHeader)
    (hr : Reachable h) : atMostOnePass h = true := by
  induction hr with
  | acquired device ptr => rfl
  | step c h _ ih => exact atMostOnePass_applyCall c h ih

/-- Claim C1: beginning a render, compute, or copy pass on a command
buffer returns a pass handle, forwards to the backend, and sets that
pass in-progress flag exactly when the command buffer is non-null, not
yet submitted, and no pass is in progress; in every other case it
returns no pass handle, performs no backend call, and leaves the state
(in particular all three in-progress flags) unchanged.  Consequently, in
every state reachable through the public API from a freshly acquired
command buffer, at most one of the three passes is in progress. -/
theorem beginPass_guard_and_exclusive :
    (∀ (h : CommandBufferCommonHeader) (a b c d : Nat),
      (h.submitted = false → h.renderPass.inProgress = false →
       h.computePass.inProgress = false → h.copyPass.inProgress = false →
        SDL_GpuBeginRenderPass (some h) a b c =
          ⟨some { h with renderPass := { h.renderPass with inProgress := true } },
            [BackendOp.beginRenderPass a b c], [], some PassKind.render⟩ ∧
        SDL_GpuBeginComputePass (some h) a b c d =
          ⟨some { h with computePass := { h.computePass with inProgress := true } },
            [BackendOp.beginComputePass a b c d], [], some PassKind.compute⟩ ∧
        SDL_GpuBeginCopyPass (some h) =
          ⟨some { h with copyPass := { h.copyPass with inProgress := true } },
            [BackendOp.beginCopyPass], [], some PassKind.copy⟩) ∧
      (h.submitted = true ∨ h.renderPass.inProgress = true ∨
       h.computePass.inProgress = true ∨ h.copyPass.inProgress = true →
        (SDL_GpuBeginRenderPass (some h) a b c).pass = none ∧
        (SDL_GpuBeginRenderPass (some h) a b c).calls = [] ∧
        (SDL_GpuBeginRenderPass (some h) a b c).buf = some h ∧
        (SDL_GpuBeginComputePass (some h) a b c d).pass = none ∧
        (SDL_GpuBeginComputePass (some h) a b c d).calls = [] ∧
        (SDL_GpuBeginComputePass (some h) a b c d).buf = some h ∧
        (SDL_GpuBeginCopyPass (some h)).pass = none ∧
        (SDL_GpuBeginCopyPass (some h)).calls = [] ∧
        (SDL_GpuBeginCopyPass (some h)).buf = some h)) ∧
    (∀ a b c d : Nat,
      SDL_GpuBeginRenderPass none a b c = ⟨none, [], [], none⟩ ∧
      SDL_GpuBeginComputePass none a b c d = ⟨none, [], [], none⟩ ∧
      SDL_GpuBeginCopyPass none = ⟨none, [], [], none⟩) ∧
    (∀ h : CommandBufferCommonHeader, Reachable h → atMostOnePass h = true) := by
  refine ⟨?_, ?_, ?_⟩
  · intro h a b c d
    constructor
    · intro hs hr hcm hcp
      refine ⟨?_, ?_, ?_⟩ <;>
        simp [SDL_GpuBeginRenderPass, SDL_GpuBeginComputePass, SDL_GpuBeginCopyPass,
          hs, hr, hcm, hcp]
    · intro hdis
      rcases hdis with hx | hx | hx | hx <;>
        [ skip;
          by_cases hsub : h.submitted;
          by_cases hsub : h.submitted;
          by_cases hsub : h.submitted ] <;>
        simp [SDL_GpuBeginRenderPass, SDL_GpuBeginComputePass, SDL_GpuBeginCopyPass, hx] <;>
        simp [hsub]
  · intro a b c d
    exact ⟨rfl, rfl, rfl⟩
  · exact reachable_atMostOnePass

/-- Concrete witness for C1: on a freshly acquired command buffer the
render pass begins successfully; on an already submitted buffer the
begin call is refused; and the freshly acquired state satisfies the
mutual-exclusion invariant. -/
theorem beginPass_guard_and_exclusive_witness :
    SDL_GpuBeginRenderPass (some (acquiredHeader 0 1)) 2 3 4 =
      ⟨some { acquiredHeader 0 1 with
                renderPass := { commandBuffer := 1, inProgress := true } },
        [BackendOp.beginRenderPass 2 3 4], [], some PassKind.render⟩ ∧
    (SDL_GpuBeginRenderPass (some { acquiredHeader 0 1 with submitted := true }) 2 3 4).pass = none ∧
    atMostOnePass (acquiredHeader 0 1) = true := by
  refine ⟨?_, ?_, ?_⟩
  · exact ((beginPass_guard_and_exclusive.1 (acquiredHeader 0 1) 2 3 4 5).1
      rfl rfl rfl rfl).1
  · exact ((beginPass_guard_and_exclusive.1 { acquiredHeader 0 1 with submitted := true }
      2 3 4 5).2 (Or.inl rfl)).1
  · exact beginPass_guard_and_exclusive.2.2 (acquiredHeader 0 1) (Reachable.acquired 0 1)

/-- Claim C2: submission (plain or fence-returning) is refused with a
diagnostic, makes no backend call, and leaves the buffer unchanged
(submitted stays false) whenever any pass in-progress flag is true; the
buffer remains usable and submits successfully once the pass is ended.
When all three flags are false, submission sets submitted and forwards
to the backend; on a submitted buffer every pass-begin and submit
attempt is refused. -/
theorem submit_guard :
    (∀ h : CommandBufferCommonHeader,
      h.submitted = false →
      (h.renderPass.inProgress = true ∨ h.computePass.inProgress = true ∨
       h.copyPass.inProgress = true) →
        SDL_GpuSubmit (some h) =
          ⟨some h, [], [LogMsg.error "Cannot submit command buffer while a pass is in progress!"]⟩ ∧
        SDL_GpuSubmitAndAcquireFence (some h) =
          ⟨some h, [], [LogMsg.error "Cannot submit command buffer while a pass is in progress!"], none⟩) ∧
    (∀ h : CommandBufferCommonHeader,
      h.submitted = false → h.renderPass.inProgress = false →
      h.computePass.inProgress = false → h.copyPass.inProgress = false →
        SDL_GpuSubmit (some h) =
          ⟨some { h with submitted := true }, [BackendOp.submit], []⟩ ∧
        SDL_GpuSubmitAndAcquireFence (some h) =
          ⟨some { h with submitted := true }, [BackendOp.submitAndAcquireFence], [], some ()⟩) ∧
    (∀ h : CommandBufferCommonHeader,
      h.submitted = false → h.renderPass.inProgress = true →
      h.computePass.inProgress = false → h.copyPass.inProgress = false →
        SDL_GpuSubmit (some (SDL_GpuEndRenderPass h).buf) =
          ⟨some { (SDL_GpuEndRenderPass h).buf with submitted := true },
            [BackendOp.submit], []⟩) ∧
    (∀ (h : CommandBufferCommonHeader) (a b c d : Nat), h.submitted = true →
        (SDL_GpuBeginRenderPass (some h) a b c).pass = none ∧
        (SDL_GpuBeginRenderPass (some h) a b c).calls = [] ∧
        (SDL_GpuBeginComputePass (some h) a b c d).pass = none ∧
        (SDL_GpuBeginComputePass (some h) a b c d).calls = [] ∧
        (SDL_GpuBeginCopyPass (some h)).pass = none ∧
        (SDL_GpuBeginCopyPass (some h)).calls = [] ∧
        SDL_GpuSubmit (some h) =
          ⟨some h, [], [LogMsg.error "Command buffer already submitted!"]⟩ ∧
        SDL_GpuSubmitAndAcquireFence (some h) =
          ⟨some h, [], [LogMsg.error "Command buffer already submitted!"], none⟩) := by
  refine ⟨?_, ?_, ?_, ?_⟩
  · intro h hs hdis
    rcases hdis with hx | hx | hx <;>
      constructor <;>
      simp [SDL_GpuSubmit, SDL_GpuSubmitAndAcquireFence, hs, hx]
  · intro h hs hr hcm hcp
    constructor <;>
      simp [SDL_GpuSubmit, SDL_GpuSubmitAndAcquireFence, hs, hr, hcm, hcp]
  · intro h hs hr hcm hcp
    simp [SDL_GpuEndRenderPass, SDL_GpuSubmit, hs, hr, hcm, hcp]
  · intro h a b c d hs
    refine ⟨?_, ?_, ?_, ?_, ?_, ?_, ?_, ?_⟩ <;>
      simp [SDL_GpuBeginRenderPass, SDL_GpuBeginComputePass, SDL_GpuBeginCopyPass,
        SDL_GpuSubmit, SDL_GpuSubmitAndAcquireFence, hs]

/-- Concrete witness for C2: with a render pass in progress on a fresh
buffer, submission is refused and leaves the state unchanged; after
ending the pass the same buffer submits successfully; a fresh idle
buffer submits successfully; a submitted buffer refuses begin-render. -/
theorem submit_guard_witness :
    SDL_GpuSubmit (some { acquiredHeader 0 1 with
        renderPass := { commandBuffer := 1, inProgress := true } }) =
      ⟨some { acquiredHeader 0 1 with
          renderPass := { commandBuffer := 1, inProgress := true } },
        [], [LogMsg.error "Cannot submit command buffer while a pass is in progress!"]⟩ ∧
    SDL_GpuSubmit (some (SDL_GpuEndRenderPass { acquiredHeader 0 1 with
        renderPass := { commandBuffer := 1, inProgress := true } }).buf) =
      ⟨some { (SDL_GpuEndRenderPass { acquiredHeader 0 1 with
          renderPass := { commandBuffer := 1, inProgress := true } }).buf with
          submitted := true }, [BackendOp.submit], []⟩ ∧
    SDL_GpuSubmit (some (acquiredHeader 0 1)) =
      ⟨some { acquiredHeader 0 1 with submitted := true }, [BackendOp.submit], []⟩ ∧
    (SDL_GpuBeginRenderPass (some { acquiredHeader 0 1 with submitted := true }) 2 3 4).pass
      = none := by
  refine ⟨?_, ?_, ?_, ?_⟩
  · exact (submit_guard.1 _ rfl (Or.inl rfl)).1
  · exact submit_guard.2.2.1 _ rfl rfl rfl rfl
  · exact (submit_guard.2.1 _ rfl rfl rfl rfl).1
  · exact (submit_guard.2.2.2 _ 2 3 4 5 rfl).1

/-- Specification shape of a render-pass-scoped, pipeline-gated
operation: refused (exact diagnostic, no backend call, unchanged state)
when the render pass is not in progress, refused likewise when the
graphics pipeline is not bound, and forwarded to the backend
otherwise. -/
def RenderScopedGatedSpec (run : CommandBufferCommonHeader → PassOpResult)
    (fwd : List BackendOp) : Prop :=
  ∀ h : CommandBufferCommonHeader,
    (h.renderPass.inProgress = false →
      run h = ⟨h, [], [LogMsg.error "Render pass not in progress!"]⟩) ∧
    (h.renderPass.inProgress = true → h.graphicsPipelineBound = false →
      run h = ⟨h, [], [LogMsg.error "Graphics pipeline not bound!"]⟩) ∧
    (h.renderPass.inProgress = true → h.graphicsPipelineBound = true →
      run h = ⟨h, fwd, []⟩)

/-- Specification shape of a compute-pass-scoped, pipeline-gated
operation, mirroring RenderScopedGatedSpec. -/
def ComputeScopedGatedSpec (run : CommandBufferCommonHeader → PassOpResult)
    (fwd : List BackendOp) : Prop :=
  ∀ h : CommandBufferCommonHeader,
    (h.computePass.inProgress = false →
      run h = ⟨h, [], [LogMsg.error "Compute pass not in progress!"]⟩) ∧
    (h.computePass.inProgress = true → h.computePipelineBound = false →
      run h = ⟨h, [], [LogMsg.error "Compute pipeline not bound!"]⟩) ∧
    (h.computePass.inProgress = true → h.computePipelineBound = true →
      run h = ⟨h, fwd, []⟩)

theorem renderPassGated_spec (fwd : List BackendOp) :
    RenderScopedGatedSpec (fun h => renderPassGated h fwd) fwd := by
  intro h
  refine ⟨?_, ?_, ?_⟩ <;> intro hx <;> try intro hy
  all_goals simp [renderPassGated, *]

theorem computePassGated_spec (fwd : List BackendOp) :
    ComputeScopedGatedSpec (fun h => computePassGated h fwd) fwd := by
  intro h
  refine ⟨?_, ?_, ?_⟩ <;> intro hx <;> try intro hy
  all_goals simp [computePassGated, *]

/-- Claim C3: every render- or compute-pass-scoped resource operation
(vertex/index buffer binds, vertex/fragment sampler and storage binds,
compute storage binds, uniform pushes, all four draw variants, and
dispatch) is refused with a descriptive diagnostic, makes no backend
call, and changes no state when its pass is not in progress or its
pipeline-bound gate is false, and forwards to the backend otherwise.  In
particular, a draw attempted after begin-then-end of a render pass with
no pipeline ever bound is refused, as is a draw inside an active pass
before any pipeline bind. -/
theorem passScopedOps_gated :
    (∀ a b c : Nat, RenderScopedGatedSpec (fun h => SDL_GpuBindVertexBuffers h a b c)
      [BackendOp.bindVertexBuffers a b c]) ∧
    (∀ a b : Nat, RenderScopedGatedSpec (fun h => SDL_GpuBindIndexBuffer h a b)
      [BackendOp.bindIndexBuffer a b]) ∧
    (∀ a b c : Nat, RenderScopedGatedSpec (fun h => SDL_GpuBindVertexSamplers h a b c)
      [BackendOp.bindVertexSamplers a b c]) ∧
    (∀ a b c : Nat, RenderScopedGatedSpec (fun h => SDL_GpuBindVertexStorageTextures h a b c)
      [BackendOp.bindVertexStorageTextures a b c]) ∧
    (∀ a b c : Nat, RenderScopedGatedSpec (fun h => SDL_GpuBindVertexStorageBuffers h a b c)
      [BackendOp.bindVertexStorageBuffers a b c]) ∧
    (∀ a b c : Nat, RenderScopedGatedSpec (fun h => SDL_GpuBindFragmentSamplers h a b c)
      [BackendOp.bindFragmentSamplers a b c]) ∧
    (∀ a b c : Nat, RenderScopedGatedSpec (fun h => SDL_GpuBindFragmentStorageTextures h a b c)
      [BackendOp.bindFragmentStorageTextures a b c]) ∧
    (∀ a b c : Nat, RenderScopedGatedSpec (fun h => SDL_GpuBindFragmentStorageBuffers h a b c)
      [BackendOp.bindFragmentStorageBuffers a b c]) ∧
    (∀ a b c : Nat, RenderScopedGatedSpec (fun h => SDL_GpuPushVertexUniformData h a b c)
      [BackendOp.pushVertexUniformData a b c]) ∧
    (∀ a b c : Nat, RenderScopedGatedSpec (fun h => SDL_GpuPushFragmentUniformData h a b c)
      [BackendOp.pushFragmentUniformData a b c]) ∧
    (∀ a b c d : Nat, RenderScopedGatedSpec (fun h => SDL_GpuDrawIndexedPrimitives h a b c d)
      [BackendOp.drawIndexedPrimitives a b c d]) ∧
    (∀ a b : Nat, RenderScopedGatedSpec (fun h => SDL_GpuDrawPrimitives h a b)
      [BackendOp.drawPrimitives a b]) ∧
    (∀ a b c d : Nat, RenderScopedGatedSpec (fun h => SDL_GpuDrawPrimitivesIndirect h a b c d)
      [BackendOp.drawPrimitivesIndirect a b c d]) ∧
    (∀ a b c d : Nat, RenderScopedGatedSpec (fun h => SDL_GpuDrawIndexedPrimitivesIndirect h a b c d)
      [BackendOp.drawIndexedPrimitivesIndirect a b c d]) ∧
    (∀ a b c : Nat, ComputeScopedGatedSpec (fun h => SDL_GpuBindComputeStorageTextures h a b c)
      [BackendOp.bindComputeStorageTextures a b c]) ∧
    (∀ a b c : Nat, ComputeScopedGatedSpec (fun h => SDL_GpuBindComputeStorageBuffers h a b c)
      [BackendOp.bindComputeStorageBuffers a b c]) ∧
    (∀ a b c : Nat, ComputeScopedGatedSpec (fun h => SDL_GpuPushComputeUniformData h a b c)
      [BackendOp.pushComputeUniformData a b c]) ∧
    (∀ a b c : Nat, ComputeScopedGatedSpec (fun h => SDL_GpuDispatchCompute h a b c)
      [BackendOp.dispatchCompute a b c]) ∧
    (SDL_GpuDrawPrimitives
        ((SDL_GpuEndRenderPass
          (((SDL_GpuBeginRenderPass (some (acquiredHeader 0 1)) 2 3 4).buf).getD
            (acquiredHeader 0 1))).buf) 5 6).calls = [] ∧
    (SDL_GpuDrawPrimitives
        ((SDL_GpuEndRenderPass
          (((SDL_GpuBeginRenderPass (some (acquiredHeader 0 1)) 2 3 4).buf).getD
            (acquiredHeader 0 1))).buf) 5 6).logs =
      [LogMsg.error "Render pass not in progress!"] ∧
    (SDL_GpuDrawPrimitives
        (((SDL_GpuBeginRenderPass (some (acquiredHeader 0 1)) 2 3 4).buf).getD
          (acquiredHeader 0 1)) 5 6).calls = [] ∧
    (SDL_GpuDrawPrimitives
        (((SDL_GpuBeginRenderPass (some (acquiredHeader 0 1)) 2 3 4).buf).getD
          (acquiredHeader 0 1)) 5 6).logs =
      [LogMsg.error "Graphics pipeline not bound!"] := by
  refine ⟨?_, ?_, ?_, ?_, ?_, ?_, ?_, ?_, ?_, ?_, ?_, ?_, ?_, ?_, ?_, ?_, ?_, ?_,
    ?_, ?_, ?_, ?_⟩
  · exact fun a b c => renderPassGated_spec _
  · exact fun a b => renderPassGated_spec _
  · exact fun a b c => renderPassGated_spec _
  · exact fun a b c => renderPassGated_spec _
  · exact fun a b c => renderPassGated_spec _
  · exact fun a b c => renderPassGated_spec _
  · exact fun a b c => renderPassGated_spec _
  · exact fun a b c => renderPassGated_spec _
  · exact fun a b c => renderPassGated_spec _
  · exact fun a b c => renderPassGated_spec _
  · exact fun a b c d => renderPassGated_spec _
  · exact fun a b => renderPassGated_spec _
  · exact fun a b c d => renderPassGated_spec _
  · exact fun a b c d => renderPassGated_spec _
  · exact fun a b c => computePassGated_spec _
  · exact fun a b c => computePassGated_spec _
  · exact fun a b c => computePassGated_spec _
  · exact fun a b c => computePassGated_spec _
  · rfl
  · rfl
  · rfl
  · rfl

/-- Concrete witness for C3: on a freshly acquired buffer (no pass in
progress) a draw and a dispatch are refused with their exact
diagnostics and leave the state unchanged. -/
theorem passScopedOps_gated_witness :
    SDL_GpuDrawPrimitives (acquiredHeader 0 1) 5 6 =
      ⟨acquiredHeader 0 1, [], [LogMsg.error "Render pass not in progress!"]⟩ ∧
    SDL_GpuDispatchCompute (acquiredHeader 0 1) 1 1 1 =
      ⟨acquiredHeader 0 1, [], [LogMsg.error "Compute pass not in progress!"]⟩ := by
  obtain ⟨_, _, _, _, _, _, _, _, _, _, _, hdraw, _, _, _, _, _, hdisp, _⟩ :=
    passScopedOps_gated
  exact ⟨(hdraw 5 6 (acquiredHeader 0 1)).1 rfl,
         (hdisp 1 1 1 (acquiredHeader 0 1)).1 rfl⟩

/-- Claim C4, evaluated at the failing input: after acquire, begin
render pass, end render pass (a fully API-reachable sequence, with the
caller retaining the pass handle returned by begin), the render pass is
no longer in progress, yet SDL_GpuBindGraphicsPipeline still forwards to
the backend and sets the graphicsPipelineBound gate to true — the source
lacks the CHECK_RENDERPASS guard here, in contrast to
SDL_GpuBindComputePipeline, which correctly refuses when its pass is not
in progress (last conjunct).  This refutes the claimed invariant that a
bound gate can only become true while its pass is in progress. -/
theorem bindGraphicsPipeline_without_active_pass :
    (SDL_GpuEndRenderPass
      (((SDL_GpuBeginRenderPass (some (acquiredHeader 0 1)) 2 3 4).buf).getD
        (acquiredHeader 0 1))).buf.renderPass.inProgress = false ∧
    (SDL_GpuBindGraphicsPipeline
      ((SDL_GpuEndRenderPass
        (((SDL_GpuBeginRenderPass (some (acquiredHeader 0 1)) 2 3 4).buf).getD
          (acquiredHeader 0 1))).buf) 7).buf.graphicsPipelineBound = true ∧
    (SDL_GpuBindGraphicsPipeline
      ((SDL_GpuEndRenderPass
        (((SDL_GpuBeginRenderPass (some (acquiredHeader 0 1)) 2 3 4).buf).getD
          (acquiredHeader 0 1))).buf) 7).buf.renderPass.inProgress = false ∧
    (SDL_GpuBindGraphicsPipeline
      ((SDL_GpuEndRenderPass
        (((SDL_GpuBeginRenderPass (some (acquiredHeader 0 1)) 2 3 4).buf).getD
          (acquiredHeader 0 1))).buf) 7).calls = [BackendOp.bindGraphicsPipeline 7] ∧
    (SDL_GpuBindGraphicsPipeline
      ((SDL_GpuEndRenderPass
        (((SDL_GpuBeginRenderPass (some (acquiredHeader 0 1)) 2 3 4).buf).getD
          (acquiredHeader 0 1))).buf) 7).logs = [] ∧
    SDL_GpuBindComputePipeline (acquiredHeader 0 1) 7 =
      ⟨acquiredHeader 0 1, [], [LogMsg.error "Compute pass not in progress!"]⟩ :=
  ⟨rfl, rfl, rfl, rfl, rfl, rfl⟩

/-- Claim C5, evaluated at the failing input: on a freshly acquired
command buffer with no copy pass in progress, six of the seven copy-pass
operations (upload-to-buffer, both copies, mipmap generation, both
downloads) are forwarded to the backend with no diagnostic — the source
lacks CHECK_COPYPASS in them — while upload-to-texture (last conjunct)
is correctly refused with the copy-pass diagnostic. -/
theorem copyOps_forward_without_copy_pass :
    (acquiredHeader 0 1).copyPass.inProgress = false ∧
    SDL_GpuUploadToBuffer (acquiredHeader 0 1) 1 2 3 true =
      ⟨acquiredHeader 0 1, [BackendOp.uploadToBuffer 1 2 3 true], []⟩ ∧
    SDL_GpuCopyTextureToTexture (acquiredHeader 0 1) 1 2 false =
      ⟨acquiredHeader 0 1, [BackendOp.copyTextureToTexture 1 2 false], []⟩ ∧
    SDL_GpuCopyBufferToBuffer (acquiredHeader 0 1) 1 2 3 true =
      ⟨acquiredHeader 0 1, [BackendOp.copyBufferToBuffer 1 2 3 true], []⟩ ∧
    SDL_GpuGenerateMipmaps (acquiredHeader 0 1) 9 =
      ⟨acquiredHeader 0 1, [BackendOp.generateMipmaps 9], []⟩ ∧
    SDL_GpuDownloadFromTexture (acquiredHeader 0 1) 1 2 3 =
      ⟨acquiredHeader 0 1, [BackendOp.downloadFromTexture 1 2 3], []⟩ ∧
    SDL_GpuDownloadFromBuffer (acquiredHeader 0 1) 1 2 3 =
      ⟨acquiredHeader 0 1, [BackendOp.downloadFromBuffer 1 2 3], []⟩ ∧
    SDL_GpuUploadToTexture (acquiredHeader 0 1) 1 2 3 true =
      ⟨acquiredHeader 0 1, [], [LogMsg.error "Copy pass not in progress!"]⟩ :=
  ⟨rfl, rfl, rfl, rfl, rfl, rfl, rfl, rfl⟩

/-- Claim C9: a command buffer returned by acquisition starts idle: all
three pass in-progress flags false, both pipeline-bound gates false,
submitted false, each embedded pass tracker back-referencing the buffer
itself, and the device reference pointing at the acquiring device; when
the backend yields no buffer, acquisition returns null. -/
theorem acquireCommandBuffer_initial_state :
    (∀ (device ptr : Nat) (raw : CommandBufferCommonHeader),
      SDL_GpuAcquireCommandBuffer device (some (ptr, raw)) =
        some (ptr, acquiredHeader device ptr) ∧
      (acquiredHeader device ptr).renderPass.inProgress = false ∧
      (acquiredHeader device ptr).computePass.inProgress = false ∧
      (acquiredHeader device ptr).copyPass.inProgress = false ∧
      (acquiredHeader device ptr).graphicsPipelineBound = false ∧
      (acquiredHeader device ptr).computePipelineBound = false ∧
      (acquiredHeader device ptr).submitted = false ∧
      (acquiredHeader device ptr).renderPass.commandBuffer = ptr ∧
      (acquiredHeader device ptr).computePass.commandBuffer = ptr ∧
      (acquiredHeader device ptr).copyPass.commandBuffer = ptr ∧
      (acquiredHeader device ptr).device = device) ∧
    (∀ device : Nat, SDL_GpuAcquireCommandBuffer device none = none) :=
  ⟨fun _ _ _ => ⟨rfl, rfl, rfl, rfl, rfl, rfl, rfl, rfl, rfl, rfl, rfl⟩,
   fun _ => rfl⟩

/-- The failure sentinel SDL_GPU_BACKEND_INVALID.  Its numeric value (0)
is modelled from the public header, which is not part of src/; the
proofs only rely on it being distinct from the registered backend
flags. -/
def SDL_GPU_BACKEND_INVALID : Nat := 0

/-- Backend flag SDL_GPU_BACKEND_VULKAN, modelled from the public
header as a distinct bit flag. -/
def SDL_GPU_BACKEND_VULKAN : Nat := 1

/-- Backend flag SDL_GPU_BACKEND_D3D11, modelled from the public header
as a distinct bit flag. -/
def SDL_GPU_BACKEND_D3D11 : Nat := 2

/-- Backend flag SDL_GPU_BACKEND_METAL, modelled from the public header
as a distinct bit flag. -/
def SDL_GPU_BACKEND_METAL : Nat := 4

/-- Case-insensitive string equality, modelling SDL_strcasecmp(a,b) == 0
(character-by-character comparison after lowering). -/
def sdlStrcaseEq (a b : String) : Bool :=
  a.data.map Char.toLower == b.data.map Char.toLower

/-- One entry of the backend registry (the backends array): driver name,
backend bit flag, and the outcomes of its PrepareDriver probe and its
CreateDevice factory (true = non-null device). -/
structure SDL_GpuDriver where
  Name : String
  backendflag : Nat
  PrepareDriver : Bool
  CreateDevice : Bool
deriving DecidableEq, Repr

/-- Embedding of SDL_GpuSelectBackend.  The backend registry is the
compile-time backends array, passed as a list in registry order; the
environment override is the SDL_GetHint result (none = NULL).  Strict
priority: environment override (only the named backend is attempted;
unrecognized name or failed probe fails immediately), then the
preferred-backend mask (first registry entry whose flag intersects the
mask and whose probe succeeds; a non-fatal warning if none), then the
plain registry scan, then failure.  Returns the selected flag (or the
failure sentinel) together with the log messages emitted. -/
def SDL_GpuSelectBackend (backends : List SDL_GpuDriver) (gpudriver : Option String)
    (preferredBackends : Nat) : Nat × List LogMsg :=
  match gpudriver with
  | some nm =>
    match backends.find? (fun b => sdlStrcaseEq nm b.Name && b.PrepareDriver) with
    | some b => (b.backendflag, [])
    | none => (SDL_GPU_BACKEND_INVALID, [LogMsg.errorHintUnsupported nm])
  | none =>
    match (if preferredBackends != SDL_GPU_BACKEND_INVALID then
             backends.find? (fun b => ((preferredBackends &&& b.backendflag) != 0) && b.PrepareDriver)
           else none) with
    | some b => (b.backendflag, [])
    | none =>
      let warnLogs : List LogMsg :=
        if preferredBackends != SDL_GPU_BACKEND_INVALID then
          [LogMsg.warn "No preferred SDL_Gpu backend found!"]
        else []
      match backends.find? (fun b => b.PrepareDriver) with
      | some b => (b.backendflag, warnLogs)
      | none => (SDL_GPU_BACKEND_INVALID,
          warnLogs ++ [LogMsg.error "No supported SDL_Gpu backend found!"])

/-- Embedding of SDL_GpuCreateDevice: re-resolves the backend selection,
then instantiates the first registry entry carrying the selected flag
whose CreateDevice succeeds, tagging the device with that flag (the
returned Nat); returns none when selection failed or construction
failed. -/
def SDL_GpuCreateDevice (backends : List SDL_GpuDriver) (gpudriver : Option String)
    (preferredBackends : Nat) : Option Nat :=
  let selectedBackend := (SDL_GpuSelectBackend backends gpudriver preferredBackends).1
  if selectedBackend != SDL_GPU_BACKEND_INVALID then
    match backends.find? (fun b => b.backendflag == selectedBackend && b.CreateDevice) with
    | some b => some b.backendflag
    | none => none
  else
    none

theorem find?_append_of_all_false {α : Type} (p : α → Bool) (l₁ l₂ : List α)
    (h : ∀ a ∈ l₁, p a = false) : (l₁ ++ l₂).find? p = l₂.find? p := by
  induction l₁ with
  | nil => simp
  | cons x xs ih =>
      have hx : p x = false := h x (List.mem_cons_self x xs)
      rw [List.cons_append, List.find?_cons_of_neg _ (by simp [hx])]
      exact ih fun a ha => h a (List.mem_cons_of_mem x ha)

theorem find?_first {α : Type} (p : α → Bool) (pre post : List α) (b : α)
    (hpre : ∀ x ∈ pre, p x = false) (hb : p b = true) :
    (pre ++ b :: post).find? p = some b := by
  rw [find?_append_of_all_false p pre _ hpre, List.find?_cons_of_pos _ hb]

/-- Claim C6: backend selection follows the strict priority order.  With
an environment override the preferred mask is ignored; an unrecognized
or unprepared override name yields the failure sentinel immediately (and
device creation returns no device).  With no override and a non-empty
preferred mask, the first registry entry whose flag intersects the mask
and whose probe succeeds is selected; if none succeeds a non-fatal
warning is logged and every registered backend is tried in registry
order.  If no probe succeeds at all, the failure sentinel is returned
and device creation fails. -/
theorem selectBackend_priority :
    (∀ (backends : List SDL_GpuDriver) (nm : String) (m₁ m₂ : Nat),
      SDL_GpuSelectBackend backends (some nm) m₁ =
        SDL_GpuSelectBackend backends (some nm) m₂) ∧
    (∀ (backends : List SDL_GpuDriver) (nm : String) (m : Nat),
      (∀ b ∈ backends, (sdlStrcaseEq nm b.Name && b.PrepareDriver) = false) →
        SDL_GpuSelectBackend backends (some nm) m =
          (SDL_GPU_BACKEND_INVALID, [LogMsg.errorHintUnsupported nm]) ∧
        SDL_GpuCreateDevice backends (some nm) m = none) ∧
    (∀ (pre post : List SDL_GpuDriver) (b : SDL_GpuDriver) (nm : String) (m : Nat),
      (∀ x ∈ pre, (sdlStrcaseEq nm x.Name && x.PrepareDriver) = false) →
      (sdlStrcaseEq nm b.Name && b.PrepareDriver) = true →
        SDL_GpuSelectBackend (pre ++ b :: post) (some nm) m = (b.backendflag, [])) ∧
    (∀ (pre post : List SDL_GpuDriver) (b : SDL_GpuDriver) (m : Nat),
      m ≠ SDL_GPU_BACKEND_INVALID →
      (∀ x ∈ pre, (((m &&& x.backendflag) != 0) && x.PrepareDriver) = false) →
      (((m &&& b.backendflag) != 0) && b.PrepareDriver) = true →
        SDL_GpuSelectBackend (pre ++ b :: post) none m = (b.backendflag, [])) ∧
    (∀ (pre post : List SDL_GpuDriver) (b : SDL_GpuDriver) (m : Nat),
      m ≠ SDL_GPU_BACKEND_INVALID →
      (∀ x ∈ pre ++ b :: post, (((m &&& x.backendflag) != 0) && x.PrepareDriver) = false) →
      (∀ x ∈ pre, x.PrepareDriver = false) →
      b.PrepareDriver = true →
        SDL_GpuSelectBackend (pre ++ b :: post) none m =
          (b.backendflag, [LogMsg.warn "No preferred SDL_Gpu backend found!"])) ∧
    (∀ (backends : List SDL_GpuDriver) (onm : Option String) (m : Nat),
      (∀ b ∈ backends, b.PrepareDriver = false) →
        (SDL_GpuSelectBackend backends onm m).1 = SDL_GPU_BACKEND_INVALID ∧
        SDL_GpuCreateDevice backends onm m = none) := by
  refine ⟨?_, ?_, ?_, ?_, ?_, ?_⟩
  · intro backends nm m₁ m₂
    rfl
  · intro backends nm m h
    have hf : backends.find? (fun b => sdlStrcaseEq nm b.Name && b.PrepareDriver) = none :=
      List.find?_eq_none.mpr fun b hb => by simp [h b hb]
    constructor
    · simp [SDL_GpuSelectBackend, hf]
    · simp [SDL_GpuCreateDevice, SDL_GpuSelectBackend, hf, SDL_GPU_BACKEND_INVALID]
  · intro pre post b nm m hpre hb
    have hf := find?_first (fun x => sdlStrcaseEq nm x.Name && x.PrepareDriver) pre post b hpre hb
    simp [SDL_GpuSelectBackend, hf]
  · intro pre post b m hm hpre hb
    have hm' : (m != SDL_GPU_BACKEND_INVALID) = true := by
      simpa using hm
    have hf := find?_first
      (fun x => ((m &&& x.backendflag) != 0) && x.PrepareDriver) pre post b hpre hb
    simp [SDL_GpuSelectBackend, hm', hf]
  · intro pre post b m hm hall hpre hb
    have hm' : (m != SDL_GPU_BACKEND_INVALID) = true := by
      simpa using hm
    have hmaskf : (pre ++ b :: post).find?
        (fun x => ((m &&& x.backendflag) != 0) && x.PrepareDriver) = none :=
      List.find?_eq_none.mpr fun x hx => by simp [hall x hx]
    have hfall := find?_first (fun x => x.PrepareDriver) pre post b hpre hb
    simp [SDL_GpuSelectBackend, hm', hmaskf, hfall]
  · intro backends onm m h
    have hsel : (SDL_GpuSelectBackend backends onm m).1 = SDL_GPU_BACKEND_INVALID := by
      cases onm with
      | some nm =>
          have hf : backends.find? (fun b => sdlStrcaseEq nm b.Name && b.PrepareDriver) = none :=
            List.find?_eq_none.mpr fun b hb => by simp [h b hb]
          simp [SDL_GpuSelectBackend, hf]
      | none =>
          have hmaskf : backends.find?
              (fun x => ((m &&& x.backendflag) != 0) && x.PrepareDriver) = none :=
            List.find?_eq_none.mpr fun x hx => by simp [h x hx]
          have hfall : backends.find? (fun x => x.PrepareDriver) = none :=
            List.find?_eq_none.mpr fun x hx => by simp [h x hx]
          by_cases hm : (m != SDL_GPU_BACKEND_INVALID) = true <;>
            simp [SDL_GpuSelectBackend, hm, hmaskf, hfall]
    refine ⟨hsel, ?_⟩
    simp [SDL_GpuCreateDevice, hsel, SDL_GPU_BACKEND_INVALID]

/-- Concrete witness for C6: a two-entry registry where the first driver
fails its probe and the second succeeds.  An override naming the first
driver fails regardless of a mask preferring the second; an override
with an unknown name fails; with no override, a mask preferring the
second driver selects it; a mask preferring only the first driver falls
through, with a warning, to the second; with nothing preparable the
sentinel is returned and device creation fails. -/
theorem selectBackend_priority_witness :
    SDL_GpuSelectBackend
        [⟨"Vulkan", 1, false, true⟩, ⟨"D3D11", 2, true, true⟩] (some "VULKAN") 2 =
      (SDL_GPU_BACKEND_INVALID, [LogMsg.errorHintUnsupported "VULKAN"]) ∧
    SDL_GpuCreateDevice
        [⟨"Vulkan", 1, false, true⟩, ⟨"D3D11", 2, true, true⟩] (some "VULKAN") 2 = none ∧
    SDL_GpuSelectBackend
        [⟨"Vulkan", 1, false, true⟩, ⟨"D3D11", 2, true, true⟩] (some "d3d11") 0 = (2, []) ∧
    SDL_GpuSelectBackend
        [⟨"Vulkan", 1, false, true⟩, ⟨"D3D11", 2, true, true⟩] none 2 = (2, []) ∧
    SDL_GpuSelectBackend
        [⟨"Vulkan", 1, false, true⟩, ⟨"D3D11", 2, true, true⟩] none 1 =
      (2, [LogMsg.warn "No preferred SDL_Gpu backend found!"]) ∧
    (SDL_GpuSelectBackend [⟨"Vulkan", 1, false, false⟩] none 1).1 =
      SDL_GPU_BACKEND_INVALID := by
  refine ⟨?_, ?_, ?_, ?_, ?_, ?_⟩
  · exact (selectBackend_priority.2.1 _ "VULKAN" 2 (by decide)).1
  · exact (selectBackend_priority.2.1 _ "VULKAN" 2 (by decide)).2
  · exact selectBackend_priority.2.2.1 [⟨"Vulkan", 1, false, true⟩] []
      ⟨"D3D11", 2, true, true⟩ "d3d11" 0 (by decide) (by decide)
  · exact selectBackend_priority.2.2.2.1 [⟨"Vulkan", 1, false, true⟩] []
      ⟨"D3D11", 2, true, true⟩ 2 (by decide) (by decide) (by decide)
  · exact selectBackend_priority.2.2.2.2.1 [⟨"Vulkan", 1, false, true⟩] []
      ⟨"D3D11", 2, true, true⟩ 1 (by decide) (by decide) (by decide) (by decide)
  · exact (selectBackend_priority.2.2.2.2.2 [⟨"Vulkan", 1, false, false⟩] none 1
      (by decide)).1

/-- Usage flag SDL_GPU_TEXTUREUSAGE_DEPTH_STENCIL_TARGET_BIT, modelled
from the public header (not in src/) as an opaque bit value; the proofs
never depend on the concrete number. -/
def SDL_GPU_TEXTUREUSAGE_DEPTH_STENCIL_TARGET_BIT : Nat := 32

/-- Modelled from the spec: IsDepthFormat is declared in
SDL_gpu_driver.h, which is not part of src/.  Following the spec, the
depth/stencil formats are the five D16/D24/D32 variants the fallback
table negotiates between. -/
def IsDepthFormat (format : TextureFormat) : Bool :=
  match format with
  | .D16_UNORM | .D24_UNORM | .D32_SFLOAT
  | .D24_UNORM_S8_UINT | .D32_SFLOAT_S8_UINT => true
  | _ => false

/-- Embedding of SDL_GpuDevice: driver-private data pointer, the
backend tag set by SDL_GpuCreateDevice, and the backend function table
entries the embedded API functions call; each backend function is an
abstract function returning the handle the backend produces (none =
NULL). -/
structure Device where
  driverData : Nat
  backend : Nat
  IsTextureFormatSupported : Nat → TextureFormat → TextureType → Nat → Bool
  CreateTexture : Nat → TextureCreateInfo → Option Nat
  CreateGraphicsPipeline : Nat → GraphicsPipelineCreateInfo → Option Nat
  CreateComputePipeline : Nat → Nat → Option Nat
  CreateSampler : Nat → Nat → Option Nat
  CreateShader : Nat → ShaderCreateInfo → Option Nat
  CompileFromSPIRVCross : Nat → Nat → String → String → Option Nat
  CreateBuffer : Nat → Nat → Nat → Option Nat
  CreateTransferBuffer : Nat → Nat → Nat → Nat → Option Nat
  CreateOcclusionQuery : Nat → Option Nat

/-- Outcome of an API call that dereferences the device pointer.
nullDeref models the behavior with a NULL device: NULL_ASSERT expands to
SDL_assert (a debug assertion, disabled in release builds) and the
function then dereferences the null device pointer — undefined behavior,
not a validated error return.  ret carries the backend calls made, the
log messages emitted, and the return value. -/
inductive DeviceCallOutcome (α : Type) where
  | nullDeref
  | ret (calls : List BackendOp) (logs : List LogMsg) (value : α)
deriving Repr

/-- The depth-format fallback switch inside SDL_GpuCreateTexture:
D24 to D32 and back, D24_S8 to D32_S8 and back, anything else to
D16. -/
def textureDepthFallback : TextureFormat → TextureFormat
  | .D24_UNORM => .D32_SFLOAT
  | .D32_SFLOAT => .D24_UNORM
  | .D24_UNORM_S8_UINT => .D32_SFLOAT_S8_UINT
  | .D32_SFLOAT_S8_UINT => .D24_UNORM_S8_UINT
  | _ => .D16_UNORM

/-- The depth-format fallback switch inside
SDL_GpuCreateGraphicsPipeline (textually duplicated in the source). -/
def pipelineDepthFallback : TextureFormat → TextureFormat
  | .D24_UNORM => .D32_SFLOAT
  | .D32_SFLOAT => .D24_UNORM
  | .D24_UNORM_S8_UINT => .D32_SFLOAT_S8_UINT
  | .D32_SFLOAT_S8_UINT => .D24_UNORM_S8_UINT
  | _ => .D16_UNORM

/-- Embedding of SDL_GpuCreateTexture: NULL_ASSERT on the device, then,
for depth formats the backend reports unsupported (probed with the 2D
texture type and the requested usage flags), substitution of the
fallback format with a warning, writing the substituted format back into
the caller-supplied create-info, then the backend create call.  The
value carries the create-info as the caller sees it after the call,
together with the backend result. -/
def SDL_GpuCreateTexture (device : Option Device)
    (textureCreateInfo : TextureCreateInfo) :
    DeviceCallOutcome (TextureCreateInfo × Option Nat) :=
  match device with
  | none => .nullDeref
  | some d =>
    if IsDepthFormat textureCreateInfo.format &&
       !(d.IsTextureFormatSupported d.driverData textureCreateInfo.format
          TextureType.t2D textureCreateInfo.usageFlags) then
      let newFormat := textureDepthFallback textureCreateInfo.format
      let newInfo := { textureCreateInfo with format := newFormat }
      .ret [BackendOp.createTexture d.driverData newInfo]
        [LogMsg.warnUnsupportedDepthFormat textureCreateInfo.format newFormat]
        (newInfo, d.CreateTexture d.driverData newInfo)
    else
      .ret [BackendOp.createTexture d.driverData textureCreateInfo] []
        (textureCreateInfo, d.CreateTexture d.driverData textureCreateInfo)

/-- Embedding of SDL_GpuCreateGraphicsPipeline: NULL_ASSERT on the
device, then, when a depth/stencil attachment is declared and its format
is unsupported (probed with the 2D texture type and the depth-stencil
usage bit), substitution of the fallback format with a warning, writing
the substituted format back into the caller-supplied create-info, then
the backend create call. -/
def SDL_GpuCreateGraphicsPipeline (device : Option Device)
    (graphicsPipelineCreateInfo : GraphicsPipelineCreateInfo) :
    DeviceCallOutcome (GraphicsPipelineCreateInfo × Option Nat) :=
  match device with
  | none => .nullDeref
  | some d =>
    if graphicsPipelineCreateInfo.attachmentInfo.hasDepthStencilAttachment &&
       !(d.IsTextureFormatSupported d.driverData
          graphicsPipelineCreateInfo.attachmentInfo.depthStencilFormat
          TextureType.t2D SDL_GPU_TEXTUREUSAGE_DEPTH_STENCIL_TARGET_BIT) then
      let newFormat := pipelineDepthFallback
        graphicsPipelineCreateInfo.attachmentInfo.depthStencilFormat
      let newInfo := { graphicsPipelineCreateInfo with
        attachmentInfo := { graphicsPipelineCreateInfo.attachmentInfo with
          depthStencilFormat := newFormat } }
      .ret [BackendOp.createGraphicsPipeline d.driverData newInfo]
        [LogMsg.warnUnsupportedDepthFormat
          graphicsPipelineCreateInfo.attachmentInfo.depthStencilFormat newFormat]
        (newInfo, d.CreateGraphicsPipeline d.driverData newInfo)
    else
      .ret [BackendOp.createGraphicsPipeline d.driverData graphicsPipelineCreateInfo] []
        (graphicsPipelineCreateInfo,
         d.CreateGraphicsPipeline d.driverData graphicsPipelineCreateInfo)

/-- Target language selector of the SPIRV-Cross shim. -/
inductive SpvcBackend where
  | hlsl
  | msl
deriving DecidableEq, Repr

/-- Abstract model of the runtime-loaded SPIRV-Cross library
(SDL_gpu_spirv.c): given the target language and the shader blob (code
pointer and size), either the translated source text or none, which
collapses every external failure mode of the shim — library load,
symbol resolution, context creation, parse, compiler setup, compile. -/
structure SpirvCrossShim where
  translate : SpvcBackend → Nat → Nat → Option String

/-- Embedding of SDL_CreateShaderFromSPIRV (SDL_gpu_spirv.c): map the
device backend to a target language (anything other than D3D11/Metal
sets an error and returns NULL), run the translation shim, and on
success hand the translated source to the backend CompileFromSPIRVCross
entry, whose result is returned. -/
def SDL_CreateShaderFromSPIRV (shim : SpirvCrossShim) (device : Device)
    (createInfo : ShaderCreateInfo) : DeviceCallOutcome (Option Nat) :=
  let backendSel : Option SpvcBackend :=
    if device.backend == SDL_GPU_BACKEND_D3D11 then some SpvcBackend.hlsl
    else if device.backend == SDL_GPU_BACKEND_METAL then some SpvcBackend.msl
    else none
  match backendSel with
  | none => .ret [] [] none
  | some be =>
    match shim.translate be createInfo.code createInfo.codeSize with
    | none => .ret [] [] none
    | some translated =>
      .ret [BackendOp.compileFromSPIRVCross device.driverData createInfo.stage
              createInfo.entryPointName translated] []
        (device.CompileFromSPIRVCross device.driverData createInfo.stage
          createInfo.entryPointName translated)

/-- Embedding of SDL_GpuCreateShader: SPIR-V bytecode on a non-Vulkan
backend is rerouted through the translation shim, everything else is
forwarded directly to the backend.  There is no null check at all in the
source: a null device is dereferenced when reading device->backend. -/
def SDL_GpuCreateShader (shim : SpirvCrossShim) (device : Option Device)
    (shaderCreateInfo : ShaderCreateInfo) : DeviceCallOutcome (Option Nat) :=
  match device with
  | none => .nullDeref
  | some d =>
    if shaderCreateInfo.format == ShaderFormat.spirv &&
       d.backend != SDL_GPU_BACKEND_VULKAN then
      SDL_CreateShaderFromSPIRV shim d shaderCreateInfo
    else
      .ret [BackendOp.createShader d.driverData shaderCreateInfo] []
        (d.CreateShader d.driverData shaderCreateInfo)

/-- Embedding of SDL_GpuCreateComputePipeline (NULL_ASSERT, then
forward; the create-info pointer is opaque to the core). -/
def SDL_GpuCreateComputePipeline (device : Option Device)
    (computePipelineCreateInfo : Nat) : DeviceCallOutcome (Option Nat) :=
  match device with
  | none => .nullDeref
  | some d =>
    .ret [BackendOp.createComputePipeline d.driverData computePipelineCreateInfo] []
      (d.CreateComputePipeline d.driverData computePipelineCreateInfo)

/-- Embedding of SDL_GpuCreateSampler (NULL_ASSERT, then forward). -/
def SDL_GpuCreateSampler (device : Option Device)
    (samplerStateInfo : Nat) : DeviceCallOutcome (Option Nat) :=
  match device with
  | none => .nullDeref
  | some d =>
    .ret [BackendOp.createSampler d.driverData samplerStateInfo] []
      (d.CreateSampler d.driverData samplerStateInfo)

/-- Embedding of SDL_GpuCreateBuffer (NULL_ASSERT, then forward). -/
def SDL_GpuCreateBuffer (device : Option Device)
    (usageFlags sizeInBytes : Nat) : DeviceCallOutcome (Option Nat) :=
  match device with
  | none => .nullDeref
  | some d =>
    .ret [BackendOp.createBuffer d.driverData usageFlags sizeInBytes] []
      (d.CreateBuffer d.driverData usageFlags sizeInBytes)

/-- Embedding of SDL_GpuCreateTransferBuffer (NULL_ASSERT, then
forward). -/
def SDL_GpuCreateTransferBuffer (device : Option Device)
    (usage mapFlags sizeInBytes : Nat) : DeviceCallOutcome (Option Nat) :=
  match device with
  | none => .nullDeref
  | some d =>
    .ret [BackendOp.createTransferBuffer d.driverData usage mapFlags sizeInBytes] []
      (d.CreateTransferBuffer d.driverData usage mapFlags sizeInBytes)

/-- Embedding of SDL_GpuCreateOcclusionQuery (NULL_ASSERT, then
forward). -/
def SDL_GpuCreateOcclusionQuery (device : Option Device) :
    DeviceCallOutcome (Option Nat) :=
  match device with
  | none => .nullDeref
  | some d =>
    .ret [BackendOp.createOcclusionQuery d.driverData] []
      (d.CreateOcclusionQuery d.driverData)

/-- Embedding of SDL_GpuReleaseTexture (NULL_ASSERT, then forward; the
backend release entry returns void). -/
def SDL_GpuReleaseTexture (device : Option Device) (texture : Nat) :
    DeviceCallOutcome Unit :=
  match device with
  | none => .nullDeref
  | some d => .ret [BackendOp.releaseTexture d.driverData texture] [] ()

/-- Embedding of SDL_GpuReleaseSampler. -/
def SDL_GpuReleaseSampler (device : Option Device) (sampler : Nat) :
    DeviceCallOutcome Unit :=
  match device with
  | none => .nullDeref
  | some d => .ret [BackendOp.releaseSampler d.driverData sampler] [] ()

/-- Embedding of SDL_GpuReleaseBuffer. -/
def SDL_GpuReleaseBuffer (device : Option Device) (buffer : Nat) :
    DeviceCallOutcome Unit :=
  match device with
  | none => .nullDeref
  | some d => .ret [BackendOp.releaseBuffer d.driverData buffer] [] ()

/-- Embedding of SDL_GpuReleaseTransferBuffer. -/
def SDL_GpuReleaseTransferBuffer (device : Option Device) (transferBuffer : Nat) :
    DeviceCallOutcome Unit :=
  match device with
  | none => .nullDeref
  | some d => .ret [BackendOp.releaseTransferBuffer d.driverData transferBuffer] [] ()

/-- Embedding of SDL_GpuReleaseShader. -/
def SDL_GpuReleaseShader (device : Option Device) (shader : Nat) :
    DeviceCallOutcome Unit :=
  match device with
  | none => .nullDeref
  | some d => .ret [BackendOp.releaseShader d.driverData shader] [] ()

/-- Embedding of SDL_GpuReleaseComputePipeline. -/
def SDL_GpuReleaseComputePipeline (device : Option Device) (computePipeline : Nat) :
    DeviceCallOutcome Unit :=
  match device with
  | none => .nullDeref
  | some d => .ret [BackendOp.releaseComputePipeline d.driverData computePipeline] [] ()

/-- Embedding of SDL_GpuReleaseGraphicsPipeline. -/
def SDL_GpuReleaseGraphicsPipeline (device : Option Device) (graphicsPipeline : Nat) :
    DeviceCallOutcome Unit :=
  match device with
  | none => .nullDeref
  | some d => .ret [BackendOp.releaseGraphicsPipeline d.driverData graphicsPipeline] [] ()

/-- Embedding of SDL_GpuReleaseOcclusionQuery. -/
def SDL_GpuReleaseOcclusionQuery (device : Option Device) (query : Nat) :
    DeviceCallOutcome Unit :=
  match device with
  | none => .nullDeref
  | some d => .ret [BackendOp.releaseOcclusionQuery d.driverData query] [] ()

/-- Embedding of SDL_GpuReleaseFence. -/
def SDL_GpuReleaseFence (device : Option Device) (fence : Nat) :
    DeviceCallOutcome Unit :=
  match device with
  | none => .nullDeref
  | some d => .ret [BackendOp.releaseFence d.driverData fence] [] ()

/-- Test device whose format-support probe reports every format
unsupported; the backend factory entries return distinct handles. -/
def deviceAllUnsupported : Device :=
  { driverData := 0
    backend := SDL_GPU_BACKEND_VULKAN
    IsTextureFormatSupported := fun _ _ _ _ => false
    CreateTexture := fun _ _ => some 1
    CreateGraphicsPipeline := fun _ _ => some 2
    CreateComputePipeline := fun _ _ => some 3
    CreateSampler := fun _ _ => some 4
    CreateShader := fun _ _ => some 5
    CompileFromSPIRVCross := fun _ _ _ _ => some 6
    CreateBuffer := fun _ _ _ => some 7
    CreateTransferBuffer := fun _ _ _ _ => some 8
    CreateOcclusionQuery := fun _ => some 9 }

/-- Test device whose format-support probe reports every format
supported. -/
def deviceAllSupported : Device :=
  { deviceAllUnsupported with IsTextureFormatSupported := fun _ _ _ _ => true }

/-- Claim C7: the depth-format fallback table is exactly the documented
symmetric pairing (D24 to D32 and back, D24_S8 to D32_S8 and back,
every other format to D16), the switch in SDL_GpuCreateTexture and the
switch in SDL_GpuCreateGraphicsPipeline are the same function, and at
both call sites an unsupported requested depth/stencil format is
replaced by that fallback with a warning identifying the
substitution. -/
theorem depthFallback_table_consistent :
    (textureDepthFallback TextureFormat.D24_UNORM = TextureFormat.D32_SFLOAT ∧
     textureDepthFallback TextureFormat.D32_SFLOAT = TextureFormat.D24_UNORM ∧
     textureDepthFallback TextureFormat.D24_UNORM_S8_UINT = TextureFormat.D32_SFLOAT_S8_UINT ∧
     textureDepthFallback TextureFormat.D32_SFLOAT_S8_UINT = TextureFormat.D24_UNORM_S8_UINT) ∧
    (∀ f : TextureFormat,
      f ≠ TextureFormat.D24_UNORM → f ≠ TextureFormat.D32_SFLOAT →
      f ≠ TextureFormat.D24_UNORM_S8_UINT → f ≠ TextureFormat.D32_SFLOAT_S8_UINT →
        textureDepthFallback f = TextureFormat.D16_UNORM) ∧
    (∀ f : TextureFormat, textureDepthFallback f = pipelineDepthFallback f) ∧
    (∀ (d : Device) (info : TextureCreateInfo),
      IsDepthFormat info.format = true →
      d.IsTextureFormatSupported d.driverData info.format TextureType.t2D info.usageFlags = false →
        SDL_GpuCreateTexture (some d) info =
          DeviceCallOutcome.ret
            [BackendOp.createTexture d.driverData
              { info with format := textureDepthFallback info.format }]
            [LogMsg.warnUnsupportedDepthFormat info.format (textureDepthFallback info.format)]
            ({ info with format := textureDepthFallback info.format },
             d.CreateTexture d.driverData
               { info with format := textureDepthFallback info.format })) ∧
    (∀ (d : Device) (info : GraphicsPipelineCreateInfo),
      info.attachmentInfo.hasDepthStencilAttachment = true →
      d.IsTextureFormatSupported d.driverData info.attachmentInfo.depthStencilFormat
        TextureType.t2D SDL_GPU_TEXTUREUSAGE_DEPTH_STENCIL_TARGET_BIT = false →
        SDL_GpuCreateGraphicsPipeline (some d) info =
          DeviceCallOutcome.ret
            [BackendOp.createGraphicsPipeline d.driverData
              { info with attachmentInfo := { info.attachmentInfo with
                  depthStencilFormat :=
                    pipelineDepthFallback info.attachmentInfo.depthStencilFormat } }]
            [LogMsg.warnUnsupportedDepthFormat info.attachmentInfo.depthStencilFormat
              (pipelineDepthFallback info.attachmentInfo.depthStencilFormat)]
            ({ info with attachmentInfo := { info.attachmentInfo with
                  depthStencilFormat :=
                    pipelineDepthFallback info.attachmentInfo.depthStencilFormat } },
             d.CreateGraphicsPipeline d.driverData
               { info with attachmentInfo := { info.attachmentInfo with
                   depthStencilFormat :=
                     pipelineDepthFallback info.attachmentInfo.depthStencilFormat } })) := by
  refine ⟨⟨rfl, rfl, rfl, rfl⟩, ?_, ?_, ?_, ?_⟩
  · intro f h1 h2 h3 h4
    cases f <;> first | rfl | simp_all
  · intro f
    cases f <;> rfl
  · intro d info hd hsup
    simp [SDL_GpuCreateTexture, hd, hsup]
  · intro d info hd hsup
    simp [SDL_GpuCreateGraphicsPipeline, hd, hsup]

/-- Concrete witness for C7: on a device whose probe reports everything
unsupported, creating a D24 texture substitutes D32 (with the warning),
and a pipeline declaring a D32_S8 depth/stencil attachment gets
D24_S8. -/
theorem depthFallback_table_consistent_witness :
    SDL_GpuCreateTexture (some deviceAllUnsupported)
        ⟨TextureFormat.D24_UNORM, 5, 7⟩ =
      DeviceCallOutcome.ret
        [BackendOp.createTexture 0 ⟨TextureFormat.D32_SFLOAT, 5, 7⟩]
        [LogMsg.warnUnsupportedDepthFormat TextureFormat.D24_UNORM TextureFormat.D32_SFLOAT]
        (⟨TextureFormat.D32_SFLOAT, 5, 7⟩, some 1) ∧
    SDL_GpuCreateGraphicsPipeline (some deviceAllUnsupported)
        ⟨⟨true, TextureFormat.D32_SFLOAT_S8_UINT, 3⟩, 4⟩ =
      DeviceCallOutcome.ret
        [BackendOp.createGraphicsPipeline 0 ⟨⟨true, TextureFormat.D24_UNORM_S8_UINT, 3⟩, 4⟩]
        [LogMsg.warnUnsupportedDepthFormat TextureFormat.D32_SFLOAT_S8_UINT
          TextureFormat.D24_UNORM_S8_UINT]
        (⟨⟨true, TextureFormat.D24_UNORM_S8_UINT, 3⟩, 4⟩, some 2) := by
  constructor
  · exact depthFallback_table_consistent.2.2.2.1 deviceAllUnsupported
      ⟨TextureFormat.D24_UNORM, 5, 7⟩ rfl rfl
  · exact depthFallback_table_consistent.2.2.2.2 deviceAllUnsupported
      ⟨⟨true, TextureFormat.D32_SFLOAT_S8_UINT, 3⟩, 4⟩ rfl rfl

/-- Claim C10: when negotiation substitutes a fallback format, the
substituted format is written back into the caller-supplied create-info
(the texture format field, or the pipeline depth-stencil attachment
format field) while every other field is left unchanged; when the
requested format is supported — or not subject to negotiation at all —
the create-info is not mutated. -/
theorem createInfo_mutation :
    (∀ (d : Device) (info : TextureCreateInfo),
      IsDepthFormat info.format = true →
      d.IsTextureFormatSupported d.driverData info.format TextureType.t2D info.usageFlags = false →
        SDL_GpuCreateTexture (some d) info =
          DeviceCallOutcome.ret
            [BackendOp.createTexture d.driverData
              ⟨textureDepthFallback info.format, info.usageFlags, info.rest⟩]
            [LogMsg.warnUnsupportedDepthFormat info.format (textureDepthFallback info.format)]
            (⟨textureDepthFallback info.format, info.usageFlags, info.rest⟩,
             d.CreateTexture d.driverData
               ⟨textureDepthFallback info.format, info.usageFlags, info.rest⟩)) ∧
    (∀ (d : Device) (info : TextureCreateInfo),
      d.IsTextureFormatSupported d.driverData info.format TextureType.t2D info.usageFlags = true →
        SDL_GpuCreateTexture (some d) info =
          DeviceCallOutcome.ret [BackendOp.createTexture d.driverData info] []
            (info, d.CreateTexture d.driverData info)) ∧
    (∀ (d : Device) (info : TextureCreateInfo),
      IsDepthFormat info.format = false →
        SDL_GpuCreateTexture (some d) info =
          DeviceCallOutcome.ret [BackendOp.createTexture d.driverData info] []
            (info, d.CreateTexture d.driverData info)) ∧
    (∀ (d : Device) (info : GraphicsPipelineCreateInfo),
      info.attachmentInfo.hasDepthStencilAttachment = true →
      d.IsTextureFormatSupported d.driverData info.attachmentInfo.depthStencilFormat
        TextureType.t2D SDL_GPU_TEXTUREUSAGE_DEPTH_STENCIL_TARGET_BIT = false →
        SDL_GpuCreateGraphicsPipeline (some d) info =
          DeviceCallOutcome.ret
            [BackendOp.createGraphicsPipeline d.driverData
              ⟨⟨info.attachmentInfo.hasDepthStencilAttachment,
                pipelineDepthFallback info.attachmentInfo.depthStencilFormat,
                info.attachmentInfo.rest⟩, info.rest⟩]
            [LogMsg.warnUnsupportedDepthFormat info.attachmentInfo.depthStencilFormat
              (pipelineDepthFallback info.attachmentInfo.depthStencilFormat)]
            (⟨⟨info.attachmentInfo.hasDepthStencilAttachment,
               pipelineDepthFallback info.attachmentInfo.depthStencilFormat,
               info.attachmentInfo.rest⟩, info.rest⟩,
             d.CreateGraphicsPipeline d.driverData
               ⟨⟨info.attachmentInfo.hasDepthStencilAttachment,
                 pipelineDepthFallback info.attachmentInfo.depthStencilFormat,
                 info.attachmentInfo.rest⟩, info.rest⟩)) ∧
    (∀ (d : Device) (info : GraphicsPipelineCreateInfo),
      d.IsTextureFormatSupported d.driverData info.attachmentInfo.depthStencilFormat
        TextureType.t2D SDL_GPU_TEXTUREUSAGE_DEPTH_STENCIL_TARGET_BIT = true →
        SDL_GpuCreateGraphicsPipeline (some d) info =
          DeviceCallOutcome.ret
            [BackendOp.createGraphicsPipeline d.driverData info] []
            (info, d.CreateGraphicsPipeline d.driverData info)) ∧
    (∀ (d : Device) (info : GraphicsPipelineCreateInfo),
      info.attachmentInfo.hasDepthStencilAttachment = false →
        SDL_GpuCreateGraphicsPipeline (some d) info =
          DeviceCallOutcome.ret
            [BackendOp.createGraphicsPipeline d.driverData info] []
            (info, d.CreateGraphicsPipeline d.driverData info)) := by
  refine ⟨?_, ?_, ?_, ?_, ?_, ?_⟩
  · intro d info hd hsup
    cases info
    simp_all [SDL_GpuCreateTexture]
  · intro d info hsup
    simp [SDL_GpuCreateTexture, hsup]
  · intro d info hd
    simp [SDL_GpuCreateTexture, hd]
  · intro d info hd hsup
    cases info with
    | mk ai rest => cases ai; simp_all [SDL_GpuCreateGraphicsPipeline]
  · intro d info hsup
    simp [SDL_GpuCreateGraphicsPipeline, hsup]
  · intro d info hd
    simp [SDL_GpuCreateGraphicsPipeline, hd]

/-- Concrete witness for C10: the unsupported-depth texture creation
mutates only the format field of the caller-supplied info, and on a
device that supports the format the info comes back untouched. -/
theorem createInfo_mutation_witness :
    SDL_GpuCreateTexture (some deviceAllUnsupported)
        ⟨TextureFormat.D32_SFLOAT, 11, 13⟩ =
      DeviceCallOutcome.ret
        [BackendOp.createTexture 0 ⟨TextureFormat.D24_UNORM, 11, 13⟩]
        [LogMsg.warnUnsupportedDepthFormat TextureFormat.D32_SFLOAT TextureFormat.D24_UNORM]
        (⟨TextureFormat.D24_UNORM, 11, 13⟩, some 1) ∧
    SDL_GpuCreateTexture (some deviceAllSupported)
        ⟨TextureFormat.D32_SFLOAT, 11, 13⟩ =
      DeviceCallOutcome.ret
        [BackendOp.createTexture 0 ⟨TextureFormat.D32_SFLOAT, 11, 13⟩] []
        (⟨TextureFormat.D32_SFLOAT, 11, 13⟩, some 1) ∧
    SDL_GpuCreateGraphicsPipeline (some deviceAllSupported)
        ⟨⟨true, TextureFormat.D24_UNORM, 3⟩, 4⟩ =
      DeviceCallOutcome.ret
        [BackendOp.createGraphicsPipeline 0 ⟨⟨true, TextureFormat.D24_UNORM, 3⟩, 4⟩] []
        (⟨⟨true, TextureFormat.D24_UNORM, 3⟩, 4⟩, some 2) := by
  refine ⟨?_, ?_, ?_⟩
  · exact createInfo_mutation.1 deviceAllUnsupported ⟨TextureFormat.D32_SFLOAT, 11, 13⟩ rfl rfl
  · exact createInfo_mutation.2.1 deviceAllSupported ⟨TextureFormat.D32_SFLOAT, 11, 13⟩ rfl
  · exact createInfo_mutation.2.2.2.2.1 deviceAllSupported
      ⟨⟨true, TextureFormat.D24_UNORM, 3⟩, 4⟩ rfl

/-- Claim C8 as stated is false: with a null device, the create/release
wrappers do not become a no-op returning a null/false/sentinel result.
NULL_ASSERT is a debug assertion that does not return from the function,
and the subsequent device dereference is undefined behavior —
SDL_GpuCreateShader has no null check at all (its first use of the
device is reading device->backend).  Evaluated at concrete inputs, the
outcome is the null-dereference outcome, not a null return. -/
theorem nullDevice_not_noop_counterexample :
    SDL_GpuCreateShader ⟨fun _ _ _ => none⟩ none
        ⟨ShaderFormat.spirv, 0, 0, 0, "main", 0⟩ = DeviceCallOutcome.nullDeref ∧
    SDL_GpuCreateSampler none 0 = DeviceCallOutcome.nullDeref ∧
    SDL_GpuCreateBuffer none 0 64 = DeviceCallOutcome.nullDeref ∧
    SDL_GpuCreateOcclusionQuery none = DeviceCallOutcome.nullDeref ∧
    SDL_GpuReleaseTexture none 3 = DeviceCallOutcome.nullDeref ∧
    SDL_GpuReleaseFence none 3 = DeviceCallOutcome.nullDeref ∧
    SDL_GpuCreateTexture none ⟨TextureFormat.R8G8B8A8, 0, 0⟩ = DeviceCallOutcome.nullDeref := by
  exact ⟨rfl, rfl, rfl, rfl, rfl, rfl, rfl⟩

/-- Claim C8, amended: with a null device every create/release wrapper
hits a debug assertion and then dereferences the null device (undefined
behavior, modelled as the null-dereference outcome), rather than
performing a validated no-op; with a non-null device the arguments are
forwarded unchanged to the backend and its result is returned verbatim
(shader creation with SPIR-V bytecode on a non-Vulkan backend being
rerouted through the translation shim, and texture / graphics-pipeline
creation being subject to depth-format negotiation first). -/
theorem create_release_forward_verbatim :
    (∀ (shim : SpirvCrossShim) (info : ShaderCreateInfo),
      SDL_GpuCreateShader shim none info = DeviceCallOutcome.nullDeref) ∧
    (∀ info : Nat, SDL_GpuCreateComputePipeline none info = DeviceCallOutcome.nullDeref) ∧
    (∀ info : TextureCreateInfo, SDL_GpuCreateTexture none info = DeviceCallOutcome.nullDeref) ∧
    (∀ info : GraphicsPipelineCreateInfo,
      SDL_GpuCreateGraphicsPipeline none info = DeviceCallOutcome.nullDeref) ∧
    (∀ s : Nat, SDL_GpuCreateSampler none s = DeviceCallOutcome.nullDeref) ∧
    (∀ u s : Nat, SDL_GpuCreateBuffer none u s = DeviceCallOutcome.nullDeref) ∧
    (∀ u m s : Nat, SDL_GpuCreateTransferBuffer none u m s = DeviceCallOutcome.nullDeref) ∧
    SDL_GpuCreateOcclusionQuery none = DeviceCallOutcome.nullDeref ∧
    (∀ x : Nat, SDL_GpuReleaseTexture none x = DeviceCallOutcome.nullDeref ∧
      SDL_GpuReleaseSampler none x = DeviceCallOutcome.nullDeref ∧
      SDL_GpuReleaseBuffer none x = DeviceCallOutcome.nullDeref ∧
      SDL_GpuReleaseTransferBuffer none x = DeviceCallOutcome.nullDeref ∧
      SDL_GpuReleaseShader none x = DeviceCallOutcome.nullDeref ∧
      SDL_GpuReleaseComputePipeline none x = DeviceCallOutcome.nullDeref ∧
      SDL_GpuReleaseGraphicsPipeline none x = DeviceCallOutcome.nullDeref ∧
      SDL_GpuReleaseOcclusionQuery none x = DeviceCallOutcome.nullDeref ∧
      SDL_GpuReleaseFence none x = DeviceCallOutcome.nullDeref) ∧
    (∀ (d : Device) (info : Nat),
      SDL_GpuCreateComputePipeline (some d) info =
        DeviceCallOutcome.ret [BackendOp.createComputePipeline d.driverData info] []
          (d.CreateComputePipeline d.driverData info)) ∧
    (∀ (d : Device) (s : Nat),
      SDL_GpuCreateSampler (some d) s =
        DeviceCallOutcome.ret [BackendOp.createSampler d.driverData s] []
          (d.CreateSampler d.driverData s)) ∧
    (∀ (d : Device) (u s : Nat),
      SDL_GpuCreateBuffer (some d) u s =
        DeviceCallOutcome.ret [BackendOp.createBuffer d.driverData u s] []
          (d.CreateBuffer d.driverData u s)) ∧
    (∀ (d : Device) (u m s : Nat),
      SDL_GpuCreateTransferBuffer (some d) u m s =
        DeviceCallOutcome.ret [BackendOp.createTransferBuffer d.driverData u m s] []
          (d.CreateTransferBuffer d.driverData u m s)) ∧
    (∀ d : Device,
      SDL_GpuCreateOcclusionQuery (some d) =
        DeviceCallOutcome.ret [BackendOp.createOcclusionQuery d.driverData] []
          (d.CreateOcclusionQuery d.driverData)) ∧
    (∀ (shim : SpirvCrossShim) (d : Device) (info : ShaderCreateInfo),
      (info.format == ShaderFormat.spirv && d.backend != SDL_GPU_BACKEND_VULKAN) = false →
        SDL_GpuCreateShader shim (some d) info =
          DeviceCallOutcome.ret [BackendOp.createShader d.driverData info] []
            (d.CreateShader d.driverData info)) ∧
    (∀ (d : Device) (x : Nat),
      SDL_GpuReleaseTexture (some d) x =
        DeviceCallOutcome.ret [BackendOp.releaseTexture d.driverData x] [] () ∧
      SDL_GpuReleaseSampler (some d) x =
        DeviceCallOutcome.ret [BackendOp.releaseSampler d.driverData x] [] () ∧
      SDL_GpuReleaseBuffer (some d) x =
        DeviceCallOutcome.ret [BackendOp.releaseBuffer d.driverData x] [] () ∧
      SDL_GpuReleaseTransferBuffer (some d) x =
        DeviceCallOutcome.ret [BackendOp.releaseTransferBuffer d.driverData x] [] () ∧
      SDL_GpuReleaseShader (some d) x =
        DeviceCallOutcome.ret [BackendOp.releaseShader d.driverData x] [] () ∧
      SDL_GpuReleaseComputePipeline (some d) x =
        DeviceCallOutcome.ret [BackendOp.releaseComputePipeline d.driverData x] [] () ∧
      SDL_GpuReleaseGraphicsPipeline (some d) x =
        DeviceCallOutcome.ret [BackendOp.releaseGraphicsPipeline d.driverData x] [] () ∧
      SDL_GpuReleaseOcclusionQuery (some d) x =
        DeviceCallOutcome.ret [BackendOp.releaseOcclusionQuery d.driverData x] [] () ∧
      SDL_GpuReleaseFence (some d) x =
        DeviceCallOutcome.ret [BackendOp.releaseFence d.driverData x] [] ()) := by
  refine ⟨fun _ _ => rfl, fun _ => rfl, fun _ => rfl, fun _ => rfl, fun _ => rfl,
    fun _ _ => rfl, fun _ _ _ => rfl, rfl,
    fun _ => ⟨rfl, rfl, rfl, rfl, rfl, rfl, rfl, rfl, rfl⟩,
    fun _ _ => rfl, fun _ _ => rfl, fun _ _ _ => rfl, fun _ _ _ _ => rfl, fun _ => rfl,
    ?_, fun _ _ => ⟨rfl, rfl, rfl, rfl, rfl, rfl, rfl, rfl, rfl⟩⟩
  intro shim d info hcond
  simp [SDL_GpuCreateShader, hcond]

/-- Concrete witness for C8 (amended): a non-SPIR-V shader create on a
concrete device is forwarded directly and returns the backend result
verbatim; a concrete sampler create and fence release forward their
arguments; a null device yields the null-dereference outcome. -/
theorem create_release_forward_verbatim_witness :
    SDL_GpuCreateShader ⟨fun _ _ _ => none⟩ (some deviceAllSupported)
        ⟨ShaderFormat.other 2, 0, 0, 1, "main", 0⟩ =
      DeviceCallOutcome.ret
        [BackendOp.createShader 0 ⟨ShaderFormat.other 2, 0, 0, 1, "main", 0⟩] []
        (some 5) ∧
    SDL_GpuCreateSampler (some deviceAllSupported) 42 =
      DeviceCallOutcome.ret [BackendOp.createSampler 0 42] [] (some 4) ∧
    SDL_GpuReleaseFence (some deviceAllSupported) 9 =
      DeviceCallOutcome.ret [BackendOp.releaseFence 0 9] [] () ∧
    SDL_GpuCreateSampler none 42 = DeviceCallOutcome.nullDeref := by
  refine ⟨?_, ?_, ?_, ?_⟩
  · exact create_release_forward_verbatim.2.2.2.2.2.2.2.2.2.2.2.2.2.2.1
      ⟨fun _ _ _ => none⟩ deviceAllSupported
      ⟨ShaderFormat.other 2, 0, 0, 1, "main", 0⟩ rfl
  · exact create_release_forward_verbatim.2.2.2.2.2.2.2.2.2.2.1 deviceAllSupported 42
  · exact (create_release_forward_verbatim.2.2.2.2.2.2.2.2.2.2.2.2.2.2.2
      deviceAllSupported 9).2.2.2.2.2.2.2.2
  · exact create_release_forward_verbatim.2.2.2.2.1 42

end SDLGpu
